import Mathlib

/-!
Verification of the BridgeFi quote/settlement orchestration core
(`src/backend/server.js`, `src/backend/services/{exchangeRate,offramp,
transactionHistory}.js`, and the on-ramp processing poll in
`src/unnamed/part_006`) against its natural-language specification.

The JavaScript source is shallowly embedded: JS numbers are modelled as
`Option ℚ` (`none` stands for a value that is not a finite number —
`NaN` / `undefined` / a nonfinite arithmetic result), nullable strings as
`Option String`, JS `Map`s as association lists in insertion order, and
fallible async functions as `Except String`-valued functions whose
collaborator calls (HTTP gateway, chain client) are passed in as
environment data.
-/

deriving instance DecidableEq for Except

namespace BridgeFi

/-- JS number: `none` models `NaN`/`undefined`/nonfinite. -/
abbrev JSNum := Option ℚ

/-- JS truthiness of a number: `0`, `NaN` and `undefined` are falsy. -/
def truthyNum : JSNum → Bool
  | some x => x ≠ 0
  | none => false

/-- JS truthiness of a nullable string: `""`, `null`, `undefined` are falsy. -/
def strTruthy : Option String → Bool
  | some s => s ≠ ""
  | none => false

/-- JS multiplication; any non-number operand yields `NaN`. -/
def jsMul : JSNum → JSNum → JSNum
  | some x, some y => some (x * y)
  | _, _ => none

/-- JS addition; any non-number operand yields `NaN`. -/
def jsAdd : JSNum → JSNum → JSNum
  | some x, some y => some (x + y)
  | _, _ => none

/-- JS division; division by zero (nonfinite result) and `NaN` operands
are modelled as `none`. -/
def jsDiv : JSNum → JSNum → JSNum
  | some x, some y => if y = 0 then none else some (x / y)
  | _, _ => none

/-- JS `>` comparison against a rational literal; false on `NaN`. -/
def jsGt : JSNum → ℚ → Bool
  | some x, q => q < x
  | none, _ => false

/-- JS `a || b` on nullable strings, collapsing a falsy result to `none`. -/
def jsOrStr (a b : Option String) : Option String :=
  if strTruthy a then a else if strTruthy b then b else none

/-- Boolean prefix test on character lists (kernel-reducible, unlike the
substring-based library primitives). -/
def charsStart : List Char → List Char → Bool
  | [], _ => true
  | _ :: _, [] => false
  | a :: ps, b :: ss => a == b && charsStart ps ss

/-- Boolean infix test on character lists. -/
def charsInfix (pat : List Char) : List Char → Bool
  | [] => charsStart pat []
  | b :: t => charsStart pat (b :: t) || charsInfix pat t

/-- JS `String.prototype.includes`. -/
def strIncludes (s pat : String) : Bool :=
  charsInfix pat.toList s.toList

/-- JS `String.prototype.startsWith`. -/
def strStartsWith (s pre : String) : Bool :=
  charsStart pre.toList s.toList

/-- JS `Map` as an association list in insertion order. -/
abbrev JsMap (α : Type) := List (String × α)

/-- JS `Map.prototype.set`: overwrite in place if the key exists,
append otherwise. -/
def mapSet {α : Type} (m : JsMap α) (k : String) (v : α) : JsMap α :=
  if m.any (fun p => p.1 == k) then
    m.map (fun p => if p.1 == k then (k, v) else p)
  else
    m ++ [(k, v)]

/-- JS `Map.prototype.get` (first binding wins; `mapSet` keeps keys unique). -/
def mapGet {α : Type} (m : JsMap α) (k : String) : Option α :=
  m.lookup k

/-! ## Rate Oracle (`src/backend/services/exchangeRate.js`) -/

namespace ExchangeRate

/-- The module-level `rateCache` object (exchangeRate.js lines 9-14). -/
structure RateCache where
  usdcToNgn : JSNum
  ngnToUsdc : JSNum
  timestamp : Option Nat
  source : Option String
deriving DecidableEq

/-- Initial cache value: all fields `null` (exchangeRate.js lines 9-14). -/
def emptyRateCache : RateCache :=
  { usdcToNgn := none, ngnToUsdc := none, timestamp := none, source := none }

/-- One attempt against a rate source: the `axios.get` + `parse` step either
throws (any error is caught and the loop continues) or yields the parsed
value, which may fail to be a finite positive number. -/
abbrev SourceAttempt := String × Except String JSNum

/-- Model of `fetchUSDCToNGNRate` (exchangeRate.js lines 33-79): walk the fallback
chain of sources; on the first finite positive base rate, apply the margin
multiplicatively (`baseRate * (1 + margin)`, line 45) and overwrite the
cache with the margined rate and its reciprocal (lines 47-52).  If every
source fails, the commented-out fallback block (lines 67-76) is skipped and
the function returns the existing `rateCache` object unchanged (line 78);
no path throws, so the `Except` codomain is always `.ok`. -/
def fetchUSDCToNGNRate (sources : List SourceAttempt) (margin : JSNum)
    (cache : RateCache) (now : Nat) : Except String RateCache :=
  match sources with
  | [] => Except.ok cache
  | (name, attempt) :: rest =>
    match attempt with
    | Except.error _ => fetchUSDCToNGNRate rest margin cache now
    | Except.ok baseRate =>
      if truthyNum baseRate && jsGt baseRate 0 then
        let rateWithMargin := jsMul baseRate (jsAdd (some 1) margin)
        Except.ok
          { usdcToNgn := rateWithMargin,
            ngnToUsdc := jsDiv (some 1) rateWithMargin,
            timestamp := some now,
            source := some name }
      else fetchUSDCToNGNRate rest margin cache now

/-- Model of `getUSDCToNGNRate` (exchangeRate.js lines 84-95): serve the cache while
fresh, otherwise fetch. -/
def getUSDCToNGNRate (sources : List SourceAttempt) (margin : JSNum)
    (cache : RateCache) (cacheMaxAge : Int) (now : Nat) :
    Except String RateCache :=
  let cacheAge : Int := (now : Int) - (Int.ofNat (cache.timestamp.getD 0))
  if truthyNum cache.usdcToNgn && decide (cacheAge < cacheMaxAge) then
    Except.ok cache
  else
    fetchUSDCToNGNRate sources margin cache now

/-- A source attempt that does not produce a usable rate: it either threw,
or parsed to a value that is not a finite positive number. -/
def failedAttempt : SourceAttempt → Prop
  | (_, Except.error _) => True
  | (_, Except.ok r) => ¬(truthyNum r && jsGt r 0)

instance : DecidablePred failedAttempt := by
  intro a
  rcases a with ⟨n, e | r⟩ <;> unfold failedAttempt <;> infer_instance

end ExchangeRate

/-! ## Transaction Journal (`src/backend/services/transactionHistory.js`) -/

namespace TxHistory

/-- A `metadata` value: the call sites store strings and numbers. -/
inductive MetaVal where
  | str (s : String)
  | num (n : JSNum)
deriving DecidableEq

/-- Free-form `metadata` object, modelled as a string-keyed record. -/
abbrev Metadata := List (String × MetaVal)

/-- JS object spread `{ ...old, ...upd }`: keys of `upd` override `old`. -/
def mergeMeta (old upd : Metadata) : Metadata :=
  old.filter (fun p => !(upd.any (fun q => q.1 == p.1))) ++ upd

/-- A Transaction Journal entry (transactionHistory.js lines 26-38). -/
structure TxEntry where
  id : String
  type : String
  userAddress : String
  amount : JSNum
  currency : String
  status : String
  timestamp : Nat
  txHash : Option String
  reference : Option String
  metadata : Metadata
  createdAt : Nat
  updatedAt : Option Nat := none
deriving DecidableEq

/-- The module-level `transactions` map (transactionHistory.js line 7). -/
abbrev Journal := JsMap TxEntry

/-- Input object to `recordTransaction`; callers in this codebase never
pass `id` or `timestamp`, so the generated id / current time are used. -/
structure RecordInput where
  id : Option String := none
  type : String
  userAddress : String
  amount : JSNum
  currency : String
  status : String
  timestamp : Option Nat := none
  txHash : Option String := none
  reference : Option String := none
  metadata : Metadata := []

/-- Model of `recordTransaction` (transactionHistory.js lines 12-44): build the entry
with `id = transaction.id || generated` and store it under that id.  The
generated id is `` `type_Date.now()_random` `` (line 27), supplied here by
the environment as `genId`. -/
def recordTransaction (j : Journal) (genId : String) (now : Nat)
    (input : RecordInput) : Journal × TxEntry :=
  let tx : TxEntry :=
    { id := if strTruthy input.id then input.id.getD "" else genId,
      type := input.type,
      userAddress := input.userAddress,
      amount := input.amount,
      currency := input.currency,
      status := input.status,
      timestamp := input.timestamp.getD now,
      txHash := jsOrStr input.txHash none,
      reference := jsOrStr input.reference none,
      metadata := input.metadata,
      createdAt := now }
  (mapSet j tx.id tx, tx)

/-- The `updates` argument of `updateTransactionStatus`. -/
structure TxUpdates where
  txHash : Option String := none
  reference : Option String := none
  metadata : Option Metadata := none

/-- Model of `updateTransactionStatus` (transactionHistory.js lines 94-110): throws
`"Transaction <id> not found"` when the id is not in the map, otherwise
updates the entry in place. -/
def updateTransactionStatus (j : Journal) (txId newStatus : String)
    (updates : TxUpdates) (now : Nat) : Except String (Journal × TxEntry) :=
  match mapGet j txId with
  | none => Except.error ("Transaction " ++ txId ++ " not found")
  | some tx =>
    let tx' : TxEntry :=
      { tx with
        status := newStatus,
        txHash := if strTruthy updates.txHash then updates.txHash else tx.txHash,
        reference :=
          if strTruthy updates.reference then updates.reference else tx.reference,
        metadata :=
          match updates.metadata with
          | some md => mergeMeta tx.metadata md
          | none => tx.metadata,
        updatedAt := some now }
    Except.ok (mapSet j txId tx', tx')

/-- Query options of `getUserTransactions` (transactionHistory.js
lines 50-55), with their defaults. -/
structure QueryOptions where
  type : Option String := none
  status : Option String := none
  limit : Nat := 50
  offset : Nat := 0

/-- The owner/type/status filter pipeline of `getUserTransactions`
(transactionHistory.js lines 57-67). -/
def filteredTxs (j : Journal) (userAddress : String) (opts : QueryOptions) :
    List TxEntry :=
  let userTxs := (j.map (fun p => p.2)).filter
    (fun tx => tx.userAddress.toLower == userAddress.toLower)
  let byType :=
    if strTruthy opts.type then
      userTxs.filter (fun tx => tx.type == opts.type.getD "")
    else userTxs
  if strTruthy opts.status then
    byType.filter (fun tx => tx.status == opts.status.getD "")
  else byType

/-- Newest-first comparator of transactionHistory.js line 70
(`(a, b) => b.timestamp - a.timestamp`), as a `Bool` ordering. -/
def newestFirst (a b : TxEntry) : Bool :=
  b.timestamp ≤ a.timestamp

/-- Result object of `getUserTransactions` (transactionHistory.js
lines 76-81). -/
structure QueryResult where
  transactions : List TxEntry
  total : Nat
  limit : Nat
  offset : Nat
deriving DecidableEq

/-- Model of `getUserTransactions` (transactionHistory.js lines 49-82): filter by
owner (case-insensitive) and optional type/status, sort newest-first,
paginate with `slice(offset, offset + limit)`. -/
def getUserTransactions (j : Journal) (userAddress : String)
    (opts : QueryOptions) : QueryResult :=
  let sorted := (filteredTxs j userAddress opts).mergeSort newestFirst
  let total := sorted.length
  let paginated := (sorted.drop opts.offset).take opts.limit
  { transactions := paginated, total := total,
    limit := opts.limit, offset := opts.offset }

end TxHistory

/-! ## Quote status values

The services store JS status strings `'pending' | 'processing' |
'completed' | 'failed'`; they are modelled as an enumeration with their
string images. -/

inductive Status where
  | pending
  | processing
  | completed
  | failed
deriving DecidableEq

def statusStr : Status → String
  | Status.pending => "pending"
  | Status.processing => "processing"
  | Status.completed => "completed"
  | Status.failed => "failed"

/-- The quote-not-found error message thrown by both settlement executors
(offramp.js line 126 and the on-ramp `verifyPayment` at line 444 of the
concatenated services file). -/
def quoteNotFoundMsg : String :=
  "Quote not found. If the server was restarted, the quote may have been lost. Please try initiating a new transaction."

/-! ## Settlement Executor, off-ramp (`src/backend/services/offramp.js`) -/

namespace Offramp

/-- An off-ramp quote as stored in the `quotes` map (offramp.js lines
51-62); `transferReference` and `error` are added by `executeOfframp`. -/
structure Quote where
  usdcAmount : JSNum
  ngnAmount : JSNum
  bankAccount : String
  bankCode : String
  accountName : String
  rate : JSNum
  timestamp : Nat
  status : Status
  txHash : Option String
  userAddress : Option String
  transferReference : Option String := none
  error : Option String := none
deriving DecidableEq

/-- Caller-supplied redundant `quoteData` for the reconstruction fallback
of `executeOfframp` (offramp.js lines 92-117). -/
structure QuoteData where
  usdcAmount : JSNum := none
  bankAccount : Option String := none
  bankCode : Option String := none
  accountName : Option String := none
  userAddress : Option String := none
deriving DecidableEq

/-- Shape of `paystackService.createTransferRecipient`'s response as
consumed at offramp.js lines 173-178. -/
structure RecipientData where
  recipient_code : Option String
deriving DecidableEq

structure RecipientResp where
  data : Option RecipientData
deriving DecidableEq

/-- Shape of `paystackService.initiateTransfer`'s response as consumed at
offramp.js lines 189-239. -/
structure TransferData where
  reference : Option String := none
  transfer_code : Option String := none
  status : Option String := none
deriving DecidableEq

structure TransferResp where
  data : Option TransferData
deriving DecidableEq

/-- A stored mock transfer (offramp.js lines 219-231); `createdAt` models
the ISO timestamp string by the current clock value. -/
structure MockTransfer where
  quoteId : String
  transferReference : Option String
  ngnAmount : JSNum
  usdcAmount : JSNum
  bankAccount : String
  bankCode : String
  accountName : String
  txHash : String
  status : String
  createdAt : Nat
  isMock : Bool
deriving DecidableEq

/-- Environment of one `executeOfframp` invocation: the current exchange
rate (`getUSDCToNGNRate` never throws), the two Paystack collaborator
responses, the id `recordTransaction` would generate, the clock, and the
mock-mode flag. -/
structure Env where
  rate : ExchangeRate.RateCache
  recipientResp : Except String RecipientResp
  transferResp : Except String TransferResp
  genId : String
  now : Nat
  mockMode : Bool := false

/-- Mutable module state touched by the off-ramp service: its `quotes` map,
the shared transaction journal, and the `mockTransfers` map. -/
structure State where
  quotes : JsMap Quote
  journal : TxHistory.Journal
  mockTransfers : List (Option String × MockTransfer) := []
deriving DecidableEq

/-- Success value of `executeOfframp` (offramp.js lines 235-240). -/
structure ExecResult where
  success : Bool
  transferReference : Option String
  ngnAmount : JSNum
  status : String
deriving DecidableEq

/-- Observable outcome of one `executeOfframp` call: its returned or thrown
value, the state afterwards, and how many times each Paystack payout
operation was invoked. -/
structure Outcome where
  result : Except String ExecResult
  state : State
  recipientCalls : Nat
  transferCalls : Nat
deriving DecidableEq

/-- The quote object rebuilt from caller data at offramp.js lines 106-117:
`status` is `'pending'` and the NGN side is recomputed from the *current*
rate (`quoteData.usdcAmount * rate.usdcToNgn`, line 104). -/
def recreateQuote (qd : QuoteData) (rate : ExchangeRate.RateCache)
    (now : Nat) : Quote :=
  { usdcAmount := qd.usdcAmount,
    ngnAmount := jsMul qd.usdcAmount rate.usdcToNgn,
    bankAccount := qd.bankAccount.getD "",
    bankCode := qd.bankCode.getD "",
    accountName := qd.accountName.getD "",
    rate := rate.usdcToNgn,
    timestamp := now,
    status := Status.pending,
    txHash := none,
    userAddress := jsOrStr qd.userAddress none }

/-- Lines 85-130 of `executeOfframp`: find the quote, or — when it is
missing and the caller supplied bank account, bank code and account name —
recreate it with the current rate and insert it under the same id;
otherwise throw the quote-not-found error. -/
def lookupOrRecreate (quotes : JsMap Quote) (quoteId : String)
    (quoteData : Option QuoteData) (rate : ExchangeRate.RateCache)
    (now : Nat) : Except String (Quote × JsMap Quote) :=
  match mapGet quotes quoteId with
  | some q => Except.ok (q, quotes)
  | none =>
    match quoteData with
    | some qd =>
      if strTruthy qd.bankAccount && strTruthy qd.bankCode
          && strTruthy qd.accountName then
        let q := recreateQuote qd rate now
        Except.ok (q, mapSet quotes quoteId q)
      else Except.error quoteNotFoundMsg
    | none => Except.error quoteNotFoundMsg

def recipientInvalidMsg : String :=
  "Failed to create transfer recipient: Invalid response from Paystack"

def transferInvalidMsg : String :=
  "Failed to initiate transfer: Invalid response from Paystack"

/-- The `catch` block of `executeOfframp` (offramp.js lines 241-264): mark
the quote `failed`, record the error message on it, try to update the
journal entry when a user address is known — swallowing any error that
update itself throws (lines 258-260) — and rethrow the original error. -/
def execCatch (quotes : JsMap Quote) (journal : TxHistory.Journal)
    (mockTransfers : List (Option String × MockTransfer)) (quoteId : String)
    (userAddress : Option String) (q : Quote) (errMsg : String) (env : Env)
    (recipientCalls transferCalls : Nat) : Outcome :=
  let q' := { q with status := Status.failed, error := some errMsg }
  let quotes' := mapSet quotes quoteId q'
  let journal' :=
    if strTruthy userAddress then
      match TxHistory.updateTransactionStatus journal quoteId "failed"
          { metadata := some [("error", TxHistory.MetaVal.str errMsg)] }
          env.now with
      | Except.ok (j, _) => j
      | Except.error _ => journal
    else journal
  { result := Except.error errMsg,
    state := { quotes := quotes', journal := journal',
               mockTransfers := mockTransfers },
    recipientCalls := recipientCalls, transferCalls := transferCalls }

/-- The `Map.set` used for the `mockTransfers` map, whose key may be the possibly
absent transfer reference. -/
def mockSet (m : List (Option String × MockTransfer)) (k : Option String)
    (v : MockTransfer) : List (Option String × MockTransfer) :=
  if m.any (fun p => p.1 == k) then
    m.map (fun p => if p.1 == k then (k, v) else p)
  else m ++ [(k, v)]

/-- Model of `executeOfframp` (offramp.js lines 81-265). -/
def executeOfframp (s : State) (env : Env) (quoteId txHash : String)
    (quoteData : Option QuoteData) : Outcome :=
  match lookupOrRecreate s.quotes quoteId quoteData env.rate env.now with
  | Except.error e =>
    { result := Except.error e, state := s,
      recipientCalls := 0, transferCalls := 0 }
  | Except.ok (quote, quotes1) =>
    -- line 133: quote.userAddress || (quoteData && quoteData.userAddress) || null
    let userAddress :=
      jsOrStr quote.userAddress (quoteData.bind (fun qd => qd.userAddress))
    -- lines 135-137: reject terminal quotes before any mutation
    if quote.status ≠ Status.pending ∧ quote.status ≠ Status.processing then
      { result := Except.error
          ("Quote already processed with status: " ++ statusStr quote.status),
        state := { s with quotes := quotes1 },
        recipientCalls := 0, transferCalls := 0 }
    else
      -- lines 141-142
      let quote2 := { quote with txHash := some txHash,
                                 status := Status.processing }
      let quotes2 := mapSet quotes1 quoteId quote2
      -- lines 145-162: journal entry only when a user address is known;
      -- `recordTransaction` receives no `id`, so the entry is stored under
      -- the generated id, not under `quoteId`
      let journal1 :=
        if strTruthy userAddress then
          (TxHistory.recordTransaction s.journal env.genId env.now
            { type := "offramp",
              userAddress := userAddress.getD "",
              amount := quote2.usdcAmount,
              currency := "USDC",
              status := "processing",
              txHash := some txHash,
              reference := some quoteId,
              metadata :=
                [("ngnAmount", TxHistory.MetaVal.num quote2.ngnAmount),
                 ("bankAccount", TxHistory.MetaVal.str quote2.bankAccount),
                 ("bankCode", TxHistory.MetaVal.str quote2.bankCode),
                 ("accountName", TxHistory.MetaVal.str quote2.accountName),
                 ("exchangeRate", TxHistory.MetaVal.num quote2.rate)] }).1
        else s.journal
      -- the try block, lines 164-240
      match env.recipientResp with
      | Except.error e =>
        execCatch quotes2 journal1 s.mockTransfers quoteId userAddress
          quote2 e env 1 0
      | Except.ok recipient =>
        let recipientOk :=
          match recipient.data with
          | some rd => strTruthy rd.recipient_code
          | none => false
        if recipientOk = false then
          execCatch quotes2 journal1 s.mockTransfers quoteId userAddress
            quote2 recipientInvalidMsg env 1 0
        else
          match env.transferResp with
          | Except.error e =>
            execCatch quotes2 journal1 s.mockTransfers quoteId userAddress
              quote2 e env 1 1
          | Except.ok transfer =>
            match transfer.data with
            | none =>
              execCatch quotes2 journal1 s.mockTransfers quoteId userAddress
                quote2 transferInvalidMsg env 1 1
            | some tdata =>
              -- line 194
              let transferRef := jsOrStr tdata.reference tdata.transfer_code
              -- lines 197-198
              let quote3 := { quote2 with status := Status.completed,
                                          transferReference := transferRef }
              let quotes3 := mapSet quotes2 quoteId quote3
              -- lines 201-214: this update is *inside* the try block; when
              -- it throws, control lands in the catch with the quote
              -- already marked completed
              let journalStep : Except String TxHistory.Journal :=
                if strTruthy userAddress then
                  match TxHistory.updateTransactionStatus journal1 quoteId
                      "completed"
                      { txHash := some txHash,
                        reference := transferRef,
                        metadata := some
                          [("transferReference",
                            TxHistory.MetaVal.str (transferRef.getD "")),
                           ("ngnAmount",
                            TxHistory.MetaVal.num quote3.ngnAmount)] }
                      env.now with
                  | Except.ok (j, _) => Except.ok j
                  | Except.error e => Except.error e
                else Except.ok journal1
              match journalStep with
              | Except.error e =>
                execCatch quotes3 journal1 s.mockTransfers quoteId
                  userAddress quote3 e env 1 1
              | Except.ok journal2 =>
                -- lines 217-233
                let mockTransfers' :=
                  if env.mockMode then
                    mockSet s.mockTransfers transferRef
                      { quoteId := quoteId,
                        transferReference := transferRef,
                        ngnAmount := quote3.ngnAmount,
                        usdcAmount := quote3.usdcAmount,
                        bankAccount := quote3.bankAccount,
                        bankCode := quote3.bankCode,
                        accountName := quote3.accountName,
                        txHash := txHash,
                        status := (jsOrStr tdata.status (some "pending")).getD "pending",
                        createdAt := env.now,
                        isMock := true }
                  else s.mockTransfers
                { result := Except.ok
                    { success := true,
                      transferReference := quote3.transferReference,
                      ngnAmount := quote3.ngnAmount,
                      status := (jsOrStr tdata.status (some "pending")).getD "pending" },
                  state := { quotes := quotes3, journal := journal2,
                             mockTransfers := mockTransfers' },
                  recipientCalls := 1, transferCalls := 1 }

end Offramp

/-! ## Settlement Executor, on-ramp (on-ramp service, second half of the
concatenated services file: `initiateOnramp`, `verifyPayment`,
`handlePaymentSuccess`, `sendUSDCToUser`) -/

namespace Onramp

/-- An on-ramp quote as stored in the on-ramp `quotes` map (lines 361-368
of the concatenated services file); `txHash` is set on settlement. -/
structure Quote where
  ngnAmount : JSNum
  usdcAmount : JSNum
  userAddress : String
  rate : JSNum
  timestamp : Nat
  status : Status
  txHash : Option String := none
deriving DecidableEq

/-- Caller-supplied redundant `quoteData` for the reconstruction fallback
of the on-ramp `verifyPayment` (lines 420-435). -/
structure QuoteData where
  userAddress : Option String := none
  ngnAmount : JSNum := none
deriving DecidableEq

/-- Shape of `paystackService.verifyPayment`'s response as consumed at
lines 461-466 (`verification.data.status`). -/
structure VerifyData where
  status : String
deriving DecidableEq

structure VerifyResp where
  data : VerifyData
deriving DecidableEq

/-- Environment of one on-ramp `verifyPayment` invocation: the current
exchange rate, the gateway verify response, the outcome of
`sendUSDCToUser` (lines 518-557, a chain-client collaborator call that
resolves to the transfer hash or rejects with a
`"Failed to send USDC: ..."` / configuration error), the journal id
generator and the clock. -/
structure Env where
  rate : ExchangeRate.RateCache
  verifyResp : Except String VerifyResp
  sendResult : Except String String
  now : Nat

/-- Mutable state touched by the on-ramp service: its own `quotes` map and
the shared transaction journal. -/
structure State where
  quotes : JsMap Quote
  journal : TxHistory.Journal
deriving DecidableEq

/-- Success value of the on-ramp `verifyPayment` (lines 451-456 and
490-494). -/
structure VerifyOk where
  success : Bool
  txHash : Option String
  usdcAmount : JSNum
deriving DecidableEq

/-- Observable outcome of one on-ramp `verifyPayment` call. -/
structure Outcome where
  result : Except String VerifyOk
  state : State
  verifyCalls : Nat
  sendCalls : Nat
deriving DecidableEq

/-- The quote object rebuilt from caller data at lines 428-435: `status`
is `'pending'` and the USDC side is recomputed from the *current* rate
(`quoteData.ngnAmount * rate.ngnToUsdc`, line 426). -/
def recreateQuote (qd : QuoteData) (rate : ExchangeRate.RateCache)
    (now : Nat) : Quote :=
  { ngnAmount := qd.ngnAmount,
    usdcAmount := jsMul qd.ngnAmount rate.ngnToUsdc,
    userAddress := qd.userAddress.getD "",
    rate := rate.ngnToUsdc,
    timestamp := now,
    status := Status.pending,
    txHash := none }

/-- Lines 416-448 of the on-ramp `verifyPayment`: find the quote, or —
when it is missing and the caller supplied a user address and an NGN
amount — recreate it with the current rate and insert it under the same
reference; otherwise throw the quote-not-found error. -/
def lookupOrRecreate (quotes : JsMap Quote) (reference : String)
    (quoteData : Option QuoteData) (rate : ExchangeRate.RateCache)
    (now : Nat) : Except String (Quote × JsMap Quote) :=
  match mapGet quotes reference with
  | some q => Except.ok (q, quotes)
  | none =>
    match quoteData with
    | some qd =>
      if strTruthy qd.userAddress && truthyNum qd.ngnAmount then
        let q := recreateQuote qd rate now
        Except.ok (q, mapSet quotes reference q)
      else Except.error quoteNotFoundMsg
    | none => Except.error quoteNotFoundMsg

/-- On-ramp `verifyPayment` (lines 415-495).  Note the journal update at
lines 478-488 is not guarded: if it throws (reference not found in the
journal), `verifyPayment` rejects even though the quote was already marked
completed and the USDC transfer already happened. -/
def verifyPayment (s : State) (env : Env) (reference : String)
    (quoteData : Option QuoteData) : Outcome :=
  match lookupOrRecreate s.quotes reference quoteData env.rate env.now with
  | Except.error e =>
    { result := Except.error e, state := s, verifyCalls := 0, sendCalls := 0 }
  | Except.ok (quote, quotes1) =>
    -- lines 450-457: idempotent read of an already-completed quote
    if quote.status = Status.completed then
      { result := Except.ok
          { success := true, txHash := quote.txHash,
            usdcAmount := quote.usdcAmount },
        state := { s with quotes := quotes1 },
        verifyCalls := 0, sendCalls := 0 }
    else
      match env.verifyResp with
      | Except.error e =>
        { result := Except.error e, state := { s with quotes := quotes1 },
          verifyCalls := 1, sendCalls := 0 }
      | Except.ok verification =>
        if verification.data.status ≠ "success" then
          { result := Except.error
              ("Payment not successful. Status: " ++ verification.data.status),
            state := { s with quotes := quotes1 },
            verifyCalls := 1, sendCalls := 0 }
        else
          match env.sendResult with
          | Except.error e =>
            { result := Except.error e,
              state := { s with quotes := quotes1 },
              verifyCalls := 1, sendCalls := 1 }
          | Except.ok tx =>
            -- lines 474-475 (sendUSDCToUser already wrote the same hash
            -- onto the stored quote at lines 547-549)
            let quote2 := { quote with status := Status.completed,
                                       txHash := some tx }
            let quotes2 := mapSet quotes1 reference quote2
            -- lines 478-488, unguarded
            match TxHistory.updateTransactionStatus s.journal reference
                "completed"
                { txHash := some tx,
                  metadata := some
                    [("usdcAmount", TxHistory.MetaVal.num quote2.usdcAmount),
                     ("ngnAmount", TxHistory.MetaVal.num quote2.ngnAmount)] }
                env.now with
            | Except.error e =>
              { result := Except.error e,
                state := { quotes := quotes2, journal := s.journal },
                verifyCalls := 1, sendCalls := 1 }
            | Except.ok (j2, _) =>
              { result := Except.ok
                  { success := true, txHash := some tx,
                    usdcAmount := quote2.usdcAmount },
                state := { quotes := quotes2, journal := j2 },
                verifyCalls := 1, sendCalls := 1 }

/-- Observable outcome of `handlePaymentSuccess`: the webhook handler
never rethrows, so `result` is always `Except.ok ()`. -/
structure WebhookOutcome where
  result : Except String Unit
  state : State
  verifyCalls : Nat
  sendCalls : Nat
deriving DecidableEq

/-- Model of `handlePaymentSuccess` (lines 500-513): dispatch references
starting with the on-ramp marker to `verifyPayment`; any error it throws is logged and dropped
(lines 510-512). -/
def handlePaymentSuccess (s : State) (env : Env) (reference : String) :
    WebhookOutcome :=
  if !(strStartsWith reference "ONRAMP_") then
    { result := Except.ok (), state := s, verifyCalls := 0, sendCalls := 0 }
  else
    let o := verifyPayment s env reference none
    match o.result with
    | Except.ok _ =>
      { result := Except.ok (), state := o.state,
        verifyCalls := o.verifyCalls, sendCalls := o.sendCalls }
    | Except.error _ =>
      { result := Except.ok (), state := o.state,
        verifyCalls := o.verifyCalls, sendCalls := o.sendCalls }

/-- Environment of `initiateOnramp`: rate, address validation
(`ethers.utils.isAddress`, a collaborator), the generated `ONRAMP_...`
reference, the Paystack `initializePayment` outcome (authorization URL or
rejection), the journal id generator and the clock. -/
structure InitEnv where
  rate : ExchangeRate.RateCache
  isValidAddress : Bool
  reference : String
  paymentInit : Except String String
  genId : String
  now : Nat

/-- Return value of `initiateOnramp` (lines 401-409). -/
structure InitResult where
  quoteId : String
  ngnAmount : JSNum
  usdcAmount : JSNum
  exchangeRate : JSNum
  paymentLink : String
  reference : String
  expiresAt : Nat
deriving DecidableEq

/-- Model of `initiateOnramp` (lines 338-410): validate, price with the current
rate, store a `pending` quote, record a journal entry (under a generated
id), then initialize the Paystack payment; a payment-initialization
failure propagates but the stored quote and journal entry remain. -/
def initiateOnramp (s : State) (env : InitEnv) (ngnAmount : JSNum)
    (userAddress : String) : Except String InitResult × State :=
  match ngnAmount with
  | none => (Except.error "Invalid NGN amount", s)
  | some ngn =>
    if ngn ≤ 0 then (Except.error "Invalid NGN amount", s)
    else if !env.isValidAddress then (Except.error "Invalid user address", s)
    else
      let usdcAmount := jsMul (some ngn) env.rate.ngnToUsdc
      -- lines 354-355: fees are zero
      let finalUsdcAmount := usdcAmount
      let quote : Quote :=
        { ngnAmount := some ngn,
          usdcAmount := finalUsdcAmount,
          userAddress := userAddress,
          rate := env.rate.ngnToUsdc,
          timestamp := env.now,
          status := Status.pending }
      let quotes' := mapSet s.quotes env.reference quote
      let journal' :=
        (TxHistory.recordTransaction s.journal env.genId env.now
          { type := "onramp",
            userAddress := userAddress,
            amount := finalUsdcAmount,
            currency := "USDC",
            status := "pending",
            reference := some env.reference,
            metadata :=
              [("ngnAmount", TxHistory.MetaVal.num (some ngn)),
               ("exchangeRate", TxHistory.MetaVal.num env.rate.ngnToUsdc)] }).1
      let s' : State := { quotes := quotes', journal := journal' }
      match env.paymentInit with
      | Except.error e => (Except.error e, s')
      | Except.ok url =>
        (Except.ok
          { quoteId := env.reference,
            ngnAmount := some ngn,
            usdcAmount := finalUsdcAmount,
            exchangeRate := env.rate.ngnToUsdc,
            paymentLink := url,
            reference := env.reference,
            expiresAt := env.now + 15 * 60 * 1000 }, s')

/-- Statuses that can ever appear in the on-ramp `quotes` map: the
on-ramp service writes only `'pending'` (creation and reconstruction) and
`'completed'` (settlement); no code path writes `'processing'` or
`'failed'` into it. -/
def statusInv (quotes : JsMap Quote) : Prop :=
  ∀ p ∈ quotes, p.2.status = Status.pending ∨ p.2.status = Status.completed

end Onramp

/-! ## HTTP layer, off-ramp execute route (`src/backend/server.js`) -/

namespace Server

/-- The names exported by offramp.js (`module.exports`, lines 302-308). -/
def offrampModuleExports : List String :=
  ["initiateOfframp", "executeOfframp", "getQuoteStatus",
   "getMockTransfer", "getAllMockTransfers"]

/-- Result shape the route expects from a successful `refundUSDC`
(server.js lines 246-256: `refundResult.txHash`,
`refundResult.usdcAmount`). -/
structure RefundResult where
  txHash : String
  usdcAmount : JSNum
deriving DecidableEq

/-- The property access `offrampService.refundUSDC` (server.js lines 240
and 308), resolved against offramp.js's `module.exports`: no `refundUSDC`
is defined or exported there (see `refundUSDC_not_exported`), so the
property is `undefined`. -/
def offrampServiceRefundUSDC :
    Option (String → JSNum → Option String → String →
      Except String RefundResult) :=
  none

/-- Invoking the resolved property: calling `undefined` throws
`TypeError: offrampService.refundUSDC is not a function`. -/
def callRefundUSDC (userAddress : String) (usdcAmount : JSNum)
    (txHash : Option String) (reason : String) : Except String RefundResult :=
  match offrampServiceRefundUSDC with
  | some fn => fn userAddress usdcAmount txHash reason
  | none => Except.error "offrampService.refundUSDC is not a function"

/-- The `refund` object attached to the route's error response (server.js
lines 252-257 and 264-267). -/
structure RefundInfo where
  success : Bool
  txHash : Option String := none
  usdcAmount : JSNum := none
  error : Option String := none
deriving DecidableEq

/-- JSON response of `POST /api/offramp/execute`. -/
structure ExecuteResponse where
  status : Nat
  success : Bool
  data : Option Offramp.ExecResult := none
  error : Option String := none
  refund : Option RefundInfo := none
deriving DecidableEq

/-- The `POST /api/offramp/execute` route handler (server.js lines
215-277), including its error handler that attempts the automatic refund
when the failed execution came with caller data carrying a truthy
`userAddress` and `usdcAmount`. -/
def executeOfframpRoute (s : Offramp.State) (env : Offramp.Env)
    (quoteId txHash : Option String) (quoteData : Option Offramp.QuoteData) :
    ExecuteResponse × Offramp.State :=
  if !(strTruthy quoteId && strTruthy txHash) then
    ({ status := 400, success := false,
       error := some "Missing required fields: quoteId, txHash" }, s)
  else
    let o := Offramp.executeOfframp s env (quoteId.getD "") (txHash.getD "")
      quoteData
    match o.result with
    | Except.ok r =>
      ({ status := 200, success := true, data := some r }, o.state)
    | Except.error errMsg =>
      let errField := jsOrStr (some errMsg) (some "Failed to execute offramp")
      match quoteData with
      | some qd =>
        if strTruthy qd.userAddress && truthyNum qd.usdcAmount then
          match callRefundUSDC (qd.userAddress.getD "") qd.usdcAmount
              (some (txHash.getD ""))
              ("Bank transfer failed: " ++ errMsg) with
          | Except.ok rr =>
            ({ status := 500, success := false, error := errField,
               refund := some { success := true, txHash := some rr.txHash,
                                usdcAmount := rr.usdcAmount } }, o.state)
          | Except.error re =>
            ({ status := 500, success := false, error := errField,
               refund := some { success := false, error := some re } },
             o.state)
        else
          ({ status := 500, success := false, error := errField }, o.state)
      | none =>
        ({ status := 500, success := false, error := errField }, o.state)

end Server

/-! ## On-ramp processing poll (`src/unnamed/part_006`, lines 51-110) -/

namespace Processing

/-- One `verifyOnrampPayment` attempt as observed by the poll: the promise
either resolves with `{success, txHash?}` or rejects with an error
message. -/
inductive AttemptResult where
  | resolved (success : Bool) (txHash : Option String)
  | rejected (msg : String)
deriving DecidableEq

/-- The retry classifier of part_006 lines 88-90: continue polling only
when the rejection message includes one of these fragments. -/
def retryableMsg (msg : String) : Bool :=
  strIncludes msg "not successful" || strIncludes msg "not found"
    || strIncludes msg "Payment not successful"

/-- part_006 line 73. -/
def maxAttempts : Nat := 60

/-- part_006 line 92: `setTimeout(resolve, 1000)`, the fixed wait between
retry attempts, in milliseconds. -/
def pollIntervalMs : Nat := 1000

/-- The timeout error thrown after the loop when no successful
verification was obtained (part_006 line 102). -/
def timeoutMsg : String :=
  "Payment verification timeout. Please check if payment was completed. If payment was successful, USDC will be sent automatically via webhook."

/-- Where the poll ends up: `verified` models the break to the blockchain
stage (lines 79-84), `failedStage` the outer catch (lines 104-109: status
`error`, stage `failed`, error message recorded), and `hung` the one exit
that sets no stage at all (a resolved result with `success` but no
`txHash`).  `calls` counts `verifyOnrampPayment` invocations and `sleeps`
counts the fixed 1s waits. -/
inductive PollOutcome where
  | verified (txHash : String) (calls sleeps : Nat)
  | failedStage (errMsg : String) (calls sleeps : Nat)
  | hung (calls sleeps : Nat)
deriving DecidableEq

/-- The `while (!verificationResult && attempts < maxAttempts)` loop of
part_006 lines 75-99 plus the post-loop timeout check (lines 101-103) and
the outer catch (lines 104-109).  `fuel = maxAttempts - attempts`; only a
retryable rejection increments `attempts` (and sleeps one interval). -/
def pollLoop (resps : Nat → AttemptResult) (calls sleeps fuel : Nat) :
    PollOutcome :=
  match fuel with
  | 0 => PollOutcome.failedStage timeoutMsg calls sleeps
  | fuel' + 1 =>
    match resps calls with
    | AttemptResult.resolved success txHash =>
      match success, txHash with
      | true, some tx => PollOutcome.verified tx (calls + 1) sleeps
      | true, none => PollOutcome.hung (calls + 1) sleeps
      | false, _ => PollOutcome.failedStage timeoutMsg (calls + 1) sleeps
    | AttemptResult.rejected msg =>
      if retryableMsg msg then pollLoop resps (calls + 1) (sleeps + 1) fuel'
      else PollOutcome.failedStage msg (calls + 1) sleeps

/-- The poll of `verifyPayment` in part_006 (lines 70-109), started with
zero attempts. -/
def verifyPaymentPoll (resps : Nat → AttemptResult) : PollOutcome :=
  pollLoop resps 0 0 maxAttempts

end Processing

/-! ## Concrete fixtures used by counterexamples and witnesses -/

namespace Fixtures

def rateOk : ExchangeRate.RateCache :=
  { usdcToNgn := some 1530, ngnToUsdc := some (1/1530),
    timestamp := some 0, source := some "Binance" }

def userAddr : String := "0x1111111111111111111111111111111111111111"

def offPending : Offramp.Quote :=
  { usdcAmount := some 10, ngnAmount := some 15300,
    bankAccount := "0123456789", bankCode := "058", accountName := "Ada Obi",
    rate := some 1530, timestamp := 0, status := Status.pending,
    txHash := none, userAddress := none }

def offPendingUser : Offramp.Quote :=
  { offPending with userAddress := some userAddr }

def offCompleted : Offramp.Quote :=
  { offPending with
    status := Status.completed,
    txHash := some "0xabc",
    transferReference := some "TRF_0" }

def envOk : Offramp.Env :=
  { rate := rateOk,
    recipientResp := Except.ok { data := some { recipient_code := some "RCP_1" } },
    transferResp := Except.ok
      { data := some { reference := some "TRF_1", transfer_code := some "TC_1",
                       status := some "success" } },
    genId := "offramp_gen_1", now := 5 }

def envRecipFail : Offramp.Env :=
  { envOk with recipientResp := Except.error "Paystack down" }

def offQD : Offramp.QuoteData :=
  { usdcAmount := some 10, bankAccount := some "0123456789",
    bankCode := some "058", accountName := some "Ada Obi",
    userAddress := some userAddr }

def onEnvFail : Onramp.Env :=
  { rate := rateOk, verifyResp := Except.error "gateway 500",
    sendResult := Except.error "Treasury private key not configured",
    now := 0 }

def onCompleted : Onramp.Quote :=
  { ngnAmount := some 15300, usdcAmount := some 10,
    userAddress := userAddr, rate := some (1/1530), timestamp := 0,
    status := Status.completed, txHash := some "0xfeed" }

def onQD : Onramp.QuoteData :=
  { userAddress := some userAddr, ngnAmount := some 15300 }

def txOn1 : TxHistory.TxEntry :=
  { id := "onramp_1", type := "onramp", userAddress := "0xAbC",
    amount := some 10, currency := "USDC", status := "pending",
    timestamp := 10, txHash := none, reference := some "ONRAMP_1",
    metadata := [], createdAt := 10 }

def txOff2 : TxHistory.TxEntry :=
  { id := "offramp_2", type := "offramp", userAddress := "0xabc",
    amount := some 5, currency := "USDC", status := "completed",
    timestamp := 30, txHash := some "0xbeef", reference := some "OFFRAMP_2",
    metadata := [], createdAt := 30 }

def txOther : TxHistory.TxEntry :=
  { id := "onramp_3", type := "onramp", userAddress := "0xdddd",
    amount := some 7, currency := "USDC", status := "completed",
    timestamp := 20, txHash := none, reference := some "ONRAMP_3",
    metadata := [], createdAt := 20 }

end Fixtures

/-! ## Helper lemmas about the embedded JS primitives -/

theorem lookup_map_overwrite {α : Type} (k : String) (v : α) :
    ∀ m : JsMap α, m.any (fun p => p.1 == k) = true →
      (m.map (fun p => if p.1 == k then (k, v) else p)).lookup k = some v := by
  intro m
  induction m with
  | nil => intro h; simp at h
  | cons p t ih =>
    obtain ⟨pk, pv⟩ := p
    intro h
    by_cases hp : pk = k
    · subst hp
      simp [List.lookup_cons]
    · have hne : (pk == k) = false := by simpa using hp
      have ht : t.any (fun p => p.1 == k) = true := by
        simpa [hne] using h
      have hke : (k == pk) = false := by simpa using Ne.symm hp
      rw [List.map_cons,
        if_neg (by simp [hne] : ¬((pk, pv).1 == k) = true),
        List.lookup_cons]
      simp only [hke]
      exact ih ht

theorem lookup_map_overwrite_ne {α : Type} (k k' : String) (v : α)
    (h : k ≠ k') :
    ∀ m : JsMap α,
      (m.map (fun p => if p.1 == k then (k, v) else p)).lookup k' =
        m.lookup k' := by
  intro m
  induction m with
  | nil => rfl
  | cons p t ih =>
    obtain ⟨pk, pv⟩ := p
    by_cases hp : pk = k
    · subst hp
      have h1 : (k' == pk) = false := by simpa using Ne.symm h
      rw [List.map_cons,
        if_pos (by simp : ((pk, pv).1 == pk) = true),
        List.lookup_cons, List.lookup_cons]
      simp only [h1]
      exact ih
    · have hne : (pk == k) = false := by simpa using hp
      rw [List.map_cons,
        if_neg (by simp [hne] : ¬((pk, pv).1 == k) = true),
        List.lookup_cons, List.lookup_cons]
      cases hk' : (k' == pk)
      · simp only [hk']
        exact ih
      · simp only [hk']

theorem lookup_append_self {α : Type} (k : String) (v : α) :
    ∀ m : JsMap α, m.any (fun p => p.1 == k) = false →
      (m ++ [(k, v)]).lookup k = some v := by
  intro m
  induction m with
  | nil => intro _; simp [List.lookup_cons]
  | cons p t ih =>
    obtain ⟨pk, pv⟩ := p
    intro h
    have h' : ((pk == k) || t.any (fun p => p.1 == k)) = false := by
      simpa using h
    have hne : (pk == k) = false := (Bool.or_eq_false_iff.mp h').1
    have ht : t.any (fun p => p.1 == k) = false := (Bool.or_eq_false_iff.mp h').2
    have hke : (k == pk) = false := by
      have hx : pk ≠ k := by simpa using hne
      simpa using Ne.symm hx
    simp [List.lookup_cons, hke, ih ht]

theorem mapGet_mapSet_self {α : Type} (m : JsMap α) (k : String) (v : α) :
    mapGet (mapSet m k v) k = some v := by
  unfold mapGet mapSet
  by_cases hm : m.any (fun p => p.1 == k) = true
  · rw [if_pos hm]
    exact lookup_map_overwrite k v m hm
  · rw [if_neg hm]
    exact lookup_append_self k v m (Bool.eq_false_iff.mpr hm)

theorem mapGet_mapSet_ne {α : Type} (m : JsMap α) (k k' : String) (v : α)
    (h : k ≠ k') : mapGet (mapSet m k v) k' = mapGet m k' := by
  unfold mapGet mapSet
  by_cases hm : m.any (fun p => p.1 == k) = true
  · rw [if_pos hm]
    exact lookup_map_overwrite_ne k k' v h m
  · rw [if_neg hm, List.lookup_append, List.lookup_cons]
    have h1 : (k' == k) = false := by simpa using Ne.symm h
    simp [h1]

namespace ExchangeRate

theorem fetch_all_failed (sources : List SourceAttempt) (margin : JSNum)
    (cache : RateCache) (now : Nat)
    (h : ∀ a ∈ sources, failedAttempt a) :
    fetchUSDCToNGNRate sources margin cache now = Except.ok cache := by
  induction sources with
  | nil => rfl
  | cons a rest ih =>
    rcases a with ⟨name, attempt⟩
    have ha := h _ (List.mem_cons_self _ _)
    have hrest : ∀ a ∈ rest, failedAttempt a := fun a hm => h a (List.mem_cons_of_mem _ hm)
    cases attempt with
    | error e => simpa [fetchUSDCToNGNRate] using ih hrest
    | ok r =>
      unfold failedAttempt at ha
      have hb : (truthyNum r && jsGt r 0) = false := Bool.eq_false_iff.mpr ha
      have e : fetchUSDCToNGNRate ((name, Except.ok r) :: rest) margin cache now
          = if (truthyNum r && jsGt r 0) = true then
              Except.ok
                { usdcToNgn := jsMul r (jsAdd (some 1) margin),
                  ngnToUsdc := jsDiv (some 1) (jsMul r (jsAdd (some 1) margin)),
                  timestamp := some now, source := some name }
            else fetchUSDCToNGNRate rest margin cache now := rfl
      rw [e, if_neg (by simp [hb])]
      exact ih hrest

end ExchangeRate

namespace Server

theorem refundUSDC_not_exported :
    offrampModuleExports.contains "refundUSDC" = false := by decide

end Server

theorem mem_mapSet {α : Type} {m : JsMap α} {k : String} {v : α}
    {p : String × α} (h : p ∈ mapSet m k v) : p = (k, v) ∨ p ∈ m := by
  unfold mapSet at h
  by_cases hm : m.any (fun q => q.1 == k) = true
  · rw [if_pos hm] at h
    rcases List.mem_map.mp h with ⟨q, hq, he⟩
    by_cases hqk : (q.1 == k) = true
    · left
      rw [← he, if_pos hqk]
    · right
      rw [← he, if_neg hqk]
      exact hq
  · rw [if_neg hm] at h
    rcases List.mem_append.mp h with h' | h'
    · right
      exact h'
    · left
      simpa using h'

namespace Offramp

theorem executeOfframp_terminal (s : State) (env : Env)
    (quoteId txHash : String) (quoteData : Option QuoteData) (q : Quote)
    (hq : mapGet s.quotes quoteId = some q)
    (hterm : q.status = Status.completed ∨ q.status = Status.failed) :
    executeOfframp s env quoteId txHash quoteData =
      { result := Except.error
          ("Quote already processed with status: " ++ statusStr q.status),
        state := s, recipientCalls := 0, transferCalls := 0 } := by
  have hlr : lookupOrRecreate s.quotes quoteId quoteData env.rate env.now
      = Except.ok (q, s.quotes) := by
    unfold lookupOrRecreate
    rw [hq]
  have hcond : q.status ≠ Status.pending ∧ q.status ≠ Status.processing := by
    rcases hterm with h | h <;> rw [h] <;> exact ⟨by decide, by decide⟩
  simp only [executeOfframp, hlr]
  rw [if_pos hcond]

theorem offrampLookupCases {quotes : JsMap Quote} {quoteId : String}
    {qd : Option QuoteData} {rate : ExchangeRate.RateCache} {now : Nat}
    {q : Quote} {m' : JsMap Quote}
    (h : lookupOrRecreate quotes quoteId qd rate now = Except.ok (q, m')) :
    (mapGet quotes quoteId = some q ∧ m' = quotes) ∨
    (q.status = Status.pending ∧ m' = mapSet quotes quoteId q) := by
  unfold lookupOrRecreate at h
  split at h
  · rename_i q0 hg
    simp only [Except.ok.injEq, Prod.mk.injEq] at h
    obtain ⟨h1, h2⟩ := h
    subst h1
    subst h2
    exact Or.inl ⟨hg, rfl⟩
  · rename_i hg
    split at h
    · rename_i qdv
      split at h
      · simp only [Except.ok.injEq, Prod.mk.injEq] at h
        obtain ⟨h1, h2⟩ := h
        subst h1
        subst h2
        exact Or.inr ⟨rfl, rfl⟩
      · exact absurd h (by simp)
    · exact absurd h (by simp)

theorem execCatch_no_user (quotes : JsMap Quote) (journal : TxHistory.Journal)
    (mockT : List (Option String × MockTransfer)) (quoteId : String)
    (uA : Option String) (q : Quote) (errMsg : String) (env : Env)
    (rc tc : Nat) (hu : strTruthy uA = false) :
    execCatch quotes journal mockT quoteId uA q errMsg env rc tc =
      { result := Except.error errMsg,
        state := { quotes := mapSet quotes quoteId
                     { q with status := Status.failed, error := some errMsg },
                   journal := journal, mockTransfers := mockT },
        recipientCalls := rc, transferCalls := tc } := by
  unfold execCatch
  rw [if_neg (by simp [hu])]

theorem executeOfframp_preserves_id (s : State) (env : Env)
    (quoteId txHash : String) (qd : Option QuoteData) (q : Quote)
    (m' : JsMap Quote)
    (hlr : lookupOrRecreate s.quotes quoteId qd env.rate env.now
      = Except.ok (q, m')) :
    ∃ q', mapGet (executeOfframp s env quoteId txHash qd).state.quotes
      quoteId = some q' := by
  have hm' : mapGet m' quoteId = some q := by
    rcases offrampLookupCases hlr with ⟨hg, rfl⟩ | ⟨_, rfl⟩
    · exact hg
    · exact mapGet_mapSet_self _ _ _
  unfold executeOfframp
  split
  · rename_i e heq
    rw [hlr] at heq
    simp at heq
  · rename_i quote quotes1 heq
    rw [hlr] at heq
    simp only [Except.ok.injEq, Prod.mk.injEq] at heq
    obtain ⟨h1, h2⟩ := heq
    subst h1
    subst h2
    split
    · exact ⟨q, hm'⟩
    · repeat'
        first
          | exact ⟨_, mapGet_mapSet_self _ _ _⟩
          | split
          | dsimp only

end Offramp

namespace Onramp

theorem verifyPayment_completed (s : State) (env : Env) (ref : String)
    (qd : Option QuoteData) (q : Quote)
    (hq : mapGet s.quotes ref = some q)
    (hst : q.status = Status.completed) :
    verifyPayment s env ref qd =
      { result := Except.ok
          { success := true, txHash := q.txHash, usdcAmount := q.usdcAmount },
        state := s, verifyCalls := 0, sendCalls := 0 } := by
  have hlr : lookupOrRecreate s.quotes ref qd env.rate env.now
      = Except.ok (q, s.quotes) := by
    unfold lookupOrRecreate
    rw [hq]
  simp only [verifyPayment, hlr]
  rw [if_pos hst]

theorem onrampLookupCases {quotes : JsMap Quote} {ref : String}
    {qd : Option QuoteData} {rate : ExchangeRate.RateCache} {now : Nat}
    {q : Quote} {m' : JsMap Quote}
    (h : lookupOrRecreate quotes ref qd rate now = Except.ok (q, m')) :
    (mapGet quotes ref = some q ∧ m' = quotes) ∨
    (q.status = Status.pending ∧ m' = mapSet quotes ref q) := by
  unfold lookupOrRecreate at h
  split at h
  · rename_i q0 hg
    simp only [Except.ok.injEq, Prod.mk.injEq] at h
    obtain ⟨h1, h2⟩ := h
    subst h1
    subst h2
    exact Or.inl ⟨hg, rfl⟩
  · rename_i hg
    split at h
    · rename_i qdv
      split at h
      · simp only [Except.ok.injEq, Prod.mk.injEq] at h
        obtain ⟨h1, h2⟩ := h
        subst h1
        subst h2
        exact Or.inr ⟨rfl, rfl⟩
      · exact absurd h (by simp)
    · exact absurd h (by simp)

theorem verifyPayment_statusInv (s : State) (env : Env) (ref : String)
    (qd : Option QuoteData) (hinv : statusInv s.quotes) :
    statusInv (verifyPayment s env ref qd).state.quotes := by
  unfold verifyPayment
  split
  · exact hinv
  · rename_i q m' hlr
    have hm' : statusInv m' := by
      rcases onrampLookupCases hlr with ⟨_, rfl⟩ | ⟨hp, rfl⟩
      · exact hinv
      · intro p hp2
        rcases mem_mapSet hp2 with rfl | hmem
        · exact Or.inl hp
        · exact hinv p hmem
    split
    · exact hm'
    · split
      · exact hm'
      · split
        · exact hm'
        · split
          · exact hm'
          · rename_i tx htx
            have hq2 : statusInv
                (mapSet m' ref
                  { q with status := Status.completed,
                           txHash := some tx }) := by
              intro p hp2
              rcases mem_mapSet hp2 with rfl | hmem
              · exact Or.inr rfl
              · exact hm' p hmem
            dsimp only
            split <;> exact hq2

theorem handlePaymentSuccess_statusInv (s : State) (env : Env)
    (ref : String) (hinv : statusInv s.quotes) :
    statusInv (handlePaymentSuccess s env ref).state.quotes := by
  unfold handlePaymentSuccess
  by_cases hp : (!(strStartsWith ref "ONRAMP_")) = true
  · rw [if_pos hp]
    exact hinv
  · rw [if_neg hp]
    have h := verifyPayment_statusInv s env ref none hinv
    dsimp only
    split <;> exact h

theorem initiateOnramp_statusInv (s : State) (env : InitEnv)
    (ngnAmount : JSNum) (userAddress : String)
    (hinv : statusInv s.quotes) :
    statusInv (initiateOnramp s env ngnAmount userAddress).2.quotes := by
  unfold initiateOnramp
  split
  · exact hinv
  · rename_i ngn
    split
    · exact hinv
    · split
      · exact hinv
      · have hq2 : statusInv (mapSet s.quotes env.reference
            { ngnAmount := some ngn,
              usdcAmount := jsMul (some ngn) env.rate.ngnToUsdc,
              userAddress := userAddress,
              rate := env.rate.ngnToUsdc,
              timestamp := env.now,
              status := Status.pending }) := by
          intro p hp2
          rcases mem_mapSet hp2 with rfl | hmem
          · exact Or.inl rfl
          · exact hinv p hmem
        dsimp only
        split <;> exact hq2

end Onramp

/-! ## Claim C5 — rate oracle behaviour when every source fails -/

/-- C5, counterexample.  The claim states that when every rate source in
the fallback chain fails and no cached rate exists, the oracle raises a
"rate unavailable" condition instead of returning a rate value.  At this
concrete input (both sources time out, cache empty) both
`fetchUSDCToNGNRate` and `getUSDCToNGNRate` return normally — the empty
cache object with `null` rate fields — and raise nothing. -/
theorem C5_counterexample :
    ExchangeRate.fetchUSDCToNGNRate
      [("Binance", Except.error "timeout of 5000ms exceeded"),
       ("CoinGecko", Except.error "timeout of 5000ms exceeded")]
      (some (1/50)) ExchangeRate.emptyRateCache 1000
      = Except.ok ExchangeRate.emptyRateCache
    ∧ ExchangeRate.getUSDCToNGNRate
      [("Binance", Except.error "timeout of 5000ms exceeded"),
       ("CoinGecko", Except.error "timeout of 5000ms exceeded")]
      (some (1/50)) ExchangeRate.emptyRateCache 30000 1000
      = Except.ok ExchangeRate.emptyRateCache
    ∧ ExchangeRate.emptyRateCache.usdcToNgn = none := by
  refine ⟨by decide, by decide, rfl⟩

/-- C5, amended.  When every rate source in the fallback chain fails and
no previously cached rate exists, the oracle does not raise: the
commented-out fallback block is skipped and the existing (empty) cache
object is returned unchanged, its `usdcToNgn`/`ngnToUsdc` fields still
`null`. -/
theorem C5_amended (sources : List ExchangeRate.SourceAttempt)
    (margin : JSNum) (maxAge : Int) (now : Nat)
    (h : ∀ a ∈ sources, ExchangeRate.failedAttempt a) :
    ExchangeRate.fetchUSDCToNGNRate sources margin
        ExchangeRate.emptyRateCache now
      = Except.ok ExchangeRate.emptyRateCache
    ∧ ExchangeRate.getUSDCToNGNRate sources margin
        ExchangeRate.emptyRateCache maxAge now
      = Except.ok ExchangeRate.emptyRateCache
    ∧ ExchangeRate.emptyRateCache.usdcToNgn = none
    ∧ ExchangeRate.emptyRateCache.ngnToUsdc = none := by
  have hf := ExchangeRate.fetch_all_failed sources margin
    ExchangeRate.emptyRateCache now h
  refine ⟨hf, ?_, rfl, rfl⟩
  unfold ExchangeRate.getUSDCToNGNRate
  simpa [ExchangeRate.emptyRateCache, truthyNum] using hf

/-- C5, witness for the amended theorem at a concrete input. -/
theorem C5_witness :
    ExchangeRate.fetchUSDCToNGNRate
      [("Binance", Except.error "ECONNREFUSED"),
       ("CoinGecko", Except.ok none)]
      (some (1/50)) ExchangeRate.emptyRateCache 7
      = Except.ok ExchangeRate.emptyRateCache
    ∧ ExchangeRate.getUSDCToNGNRate
      [("Binance", Except.error "ECONNREFUSED"),
       ("CoinGecko", Except.ok none)]
      (some (1/50)) ExchangeRate.emptyRateCache 30000 7
      = Except.ok ExchangeRate.emptyRateCache
    ∧ ExchangeRate.emptyRateCache.usdcToNgn = none
    ∧ ExchangeRate.emptyRateCache.ngnToUsdc = none :=
  C5_amended
    [("Binance", Except.error "ECONNREFUSED"), ("CoinGecko", Except.ok none)]
    (some (1/50)) 30000 7 (by decide)

/-! ## Claim C6 — multiplicative margin and reciprocal invariant -/

/-- C6.  For every successful rate fetch with raw source rate `r > 0` and
configured margin `m`, the cached rate satisfies
`usdcToNgn = r * (1 + m)` and `ngnToUsdc = 1 / usdcToNgn`; consequently
`abs(stableToFiat - 1/fiatToStable) < eps` for any positive `eps`, the
stable-per-fiat rate (`ngnToUsdc`) is compressed below the unmargined
reciprocal `1/r`, and the fiat-per-stable rate (`usdcToNgn`) is inflated
above the raw rate `r`. -/
theorem C6_margin (name : String) (cache : ExchangeRate.RateCache)
    (now : Nat) (r m eps : ℚ) (hr : 0 < r) (hm : 0 < m) (heps : 0 < eps) :
    ∃ c : ExchangeRate.RateCache,
      ExchangeRate.fetchUSDCToNGNRate [(name, Except.ok (some r))]
          (some m) cache now = Except.ok c
      ∧ c.usdcToNgn = some (r * (1 + m))
      ∧ c.ngnToUsdc = some (1 / (r * (1 + m)))
      ∧ (∀ stf fts : ℚ, c.ngnToUsdc = some stf → c.usdcToNgn = some fts →
          |stf - 1 / fts| < eps ∧ stf < 1 / r ∧ r < fts) := by
  have hA : 0 < r * (1 + m) := by positivity
  have hcond : (truthyNum (some r) && jsGt (some r) 0) = true := by
    simp [truthyNum, jsGt, hr, ne_of_gt hr]
  refine ⟨{ usdcToNgn := some (r * (1 + m)),
            ngnToUsdc := some (1 / (r * (1 + m))),
            timestamp := some now, source := some name }, ?_, rfl, rfl, ?_⟩
  · simp [ExchangeRate.fetchUSDCToNGNRate, hcond, jsMul, jsAdd, jsDiv,
      ne_of_gt hA]
  · intro stf fts h1 h2
    have hstf : stf = 1 / (r * (1 + m)) := by
      simpa using h1.symm
    have hfts : fts = r * (1 + m) := by
      simpa using h2.symm
    subst hstf hfts
    refine ⟨by simpa using heps, ?_, ?_⟩
    · exact one_div_lt_one_div_of_lt hr (lt_mul_of_one_lt_right hr (by linarith))
    · exact lt_mul_of_one_lt_right hr (by linarith)

/-- C6, witness at a concrete fetch (`r = 1500`, 2% margin). -/
theorem C6_witness :
    ∃ c : ExchangeRate.RateCache,
      ExchangeRate.fetchUSDCToNGNRate
          [("Binance", Except.ok (some 1500))] (some (1/50))
          ExchangeRate.emptyRateCache 0 = Except.ok c
      ∧ c.usdcToNgn = some (1500 * (1 + 1/50))
      ∧ c.ngnToUsdc = some (1 / (1500 * (1 + 1/50)))
      ∧ (∀ stf fts : ℚ, c.ngnToUsdc = some stf → c.usdcToNgn = some fts →
          |stf - 1 / fts| < 1/1000000 ∧ stf < 1 / 1500 ∧ 1500 < fts) :=
  C6_margin "Binance" ExchangeRate.emptyRateCache 0 1500 (1/50) (1/1000000)
    (by norm_num) (by norm_num) (by norm_num)

/-! ## Claim C2 — second `executeOfframp` call on a completed quote -/

/-- C2, counterexample.  The claim states that a second `executeOfframp`
call with the same `quoteId` and `chainTxHash` after the first call
completed returns `{success:true, transferReference: <same as first>}`.
At this concrete input the first call completes (returning transfer
reference `TRF_1`), but the second call throws
`"Quote already processed with status: completed"` instead of returning
success. -/
theorem C2_counterexample :
    (Offramp.executeOfframp
      { quotes := [("OFFRAMP_1", Fixtures.offPending)], journal := [],
        mockTransfers := [] }
      Fixtures.envOk "OFFRAMP_1" "0xdead" none).result
      = Except.ok { success := true, transferReference := some "TRF_1",
                    ngnAmount := some 15300, status := "success" }
    ∧ (Offramp.executeOfframp
        (Offramp.executeOfframp
          { quotes := [("OFFRAMP_1", Fixtures.offPending)], journal := [],
            mockTransfers := [] }
          Fixtures.envOk "OFFRAMP_1" "0xdead" none).state
        Fixtures.envOk "OFFRAMP_1" "0xdead" none).result
      = Except.error "Quote already processed with status: completed"
    ∧ (Offramp.executeOfframp
        (Offramp.executeOfframp
          { quotes := [("OFFRAMP_1", Fixtures.offPending)], journal := [],
            mockTransfers := [] }
          Fixtures.envOk "OFFRAMP_1" "0xdead" none).state
        Fixtures.envOk "OFFRAMP_1" "0xdead" none).transferCalls = 0 := by
  refine ⟨by decide, by decide, by decide⟩

/-- C2, amended.  A second `executeOfframp` call on a quote whose status
is already `completed` is rejected, not read idempotently: it throws
`"Quote already processed with status: completed"`, leaves the state
unchanged, and performs no further Paystack recipient or payout
invocation. -/
theorem C2_amended (s : Offramp.State) (env : Offramp.Env)
    (quoteId txHash : String) (quoteData : Option Offramp.QuoteData)
    (q : Offramp.Quote) (hq : mapGet s.quotes quoteId = some q)
    (hst : q.status = Status.completed) :
    Offramp.executeOfframp s env quoteId txHash quoteData =
      { result := Except.error "Quote already processed with status: completed",
        state := s, recipientCalls := 0, transferCalls := 0 } := by
  have h := Offramp.executeOfframp_terminal s env quoteId txHash quoteData q
    hq (Or.inl hst)
  have hs : ("Quote already processed with status: "
        ++ statusStr Status.completed)
      = "Quote already processed with status: completed" := by decide
  rw [h, hst, hs]

/-- C2, witness for the amended theorem at a concrete completed quote. -/
theorem C2_witness :
    Offramp.executeOfframp
      { quotes := [("OFFRAMP_1", Fixtures.offCompleted)], journal := [],
        mockTransfers := [] }
      Fixtures.envOk "OFFRAMP_1" "0xdead" none =
      { result := Except.error "Quote already processed with status: completed",
        state := { quotes := [("OFFRAMP_1", Fixtures.offCompleted)],
                   journal := [], mockTransfers := [] },
        recipientCalls := 0, transferCalls := 0 } :=
  C2_amended
    { quotes := [("OFFRAMP_1", Fixtures.offCompleted)], journal := [],
      mockTransfers := [] }
    Fixtures.envOk "OFFRAMP_1" "0xdead" none Fixtures.offCompleted
    rfl rfl

/-! ## Claim C3 — terminal statuses are sticky -/

/-- C3.  Once a quote's status is terminal, no subsequent settlement call
changes it: an off-ramp `executeOfframp` on a `completed` or `failed`
quote throws an error whose message contains "already processed" and
leaves the whole state untouched; the on-ramp `verifyPayment` on a
`completed` quote performs the idempotent already-completed read (cached
result, no state change, no gateway call); and `failed` is unreachable in
the on-ramp quotes map — every on-ramp operation (`verifyPayment`,
`handlePaymentSuccess`, `initiateOnramp`) preserves the invariant that
stored on-ramp statuses are only `pending` or `completed`. -/
theorem C3_monotonic :
    (∀ (s : Offramp.State) (env : Offramp.Env) (quoteId txHash : String)
        (quoteData : Option Offramp.QuoteData) (q : Offramp.Quote),
      mapGet s.quotes quoteId = some q →
      q.status = Status.completed ∨ q.status = Status.failed →
      Offramp.executeOfframp s env quoteId txHash quoteData =
        { result := Except.error
            ("Quote already processed with status: " ++ statusStr q.status),
          state := s, recipientCalls := 0, transferCalls := 0 }
      ∧ strIncludes
          ("Quote already processed with status: " ++ statusStr q.status)
          "already processed" = true)
    ∧ (∀ (s : Onramp.State) (env : Onramp.Env) (ref : String)
        (qd : Option Onramp.QuoteData) (q : Onramp.Quote),
      mapGet s.quotes ref = some q → q.status = Status.completed →
      Onramp.verifyPayment s env ref qd =
        { result := Except.ok
            { success := true, txHash := q.txHash,
              usdcAmount := q.usdcAmount },
          state := s, verifyCalls := 0, sendCalls := 0 })
    ∧ (∀ (s : Onramp.State) (env : Onramp.Env) (ref : String)
        (qd : Option Onramp.QuoteData),
      Onramp.statusInv s.quotes →
      Onramp.statusInv (Onramp.verifyPayment s env ref qd).state.quotes)
    ∧ (∀ (s : Onramp.State) (env : Onramp.Env) (ref : String),
      Onramp.statusInv s.quotes →
      Onramp.statusInv (Onramp.handlePaymentSuccess s env ref).state.quotes)
    ∧ (∀ (s : Onramp.State) (env : Onramp.InitEnv) (ngn : JSNum)
        (addr : String),
      Onramp.statusInv s.quotes →
      Onramp.statusInv (Onramp.initiateOnramp s env ngn addr).2.quotes) := by
  refine ⟨?_, ?_, Onramp.verifyPayment_statusInv,
    Onramp.handlePaymentSuccess_statusInv, Onramp.initiateOnramp_statusInv⟩
  · intro s env quoteId txHash quoteData q hq hterm
    refine ⟨Offramp.executeOfframp_terminal s env quoteId txHash quoteData q
      hq hterm, ?_⟩
    rcases hterm with h | h <;> rw [h] <;> decide
  · intro s env ref qd q hq hst
    exact Onramp.verifyPayment_completed s env ref qd q hq hst

/-- C3, witness at concrete terminal quotes. -/
theorem C3_witness :
    (Offramp.executeOfframp
      { quotes := [("OFFRAMP_1", Fixtures.offCompleted)], journal := [],
        mockTransfers := [] }
      Fixtures.envOk "OFFRAMP_1" "0xdead" none =
      { result := Except.error
          ("Quote already processed with status: "
            ++ statusStr Fixtures.offCompleted.status),
        state := { quotes := [("OFFRAMP_1", Fixtures.offCompleted)],
                   journal := [], mockTransfers := [] },
        recipientCalls := 0, transferCalls := 0 })
    ∧ (Onramp.verifyPayment
        { quotes := [("ONRAMP_1", Fixtures.onCompleted)], journal := [] }
        Fixtures.onEnvFail "ONRAMP_1" none =
        { result := Except.ok
            { success := true, txHash := Fixtures.onCompleted.txHash,
              usdcAmount := Fixtures.onCompleted.usdcAmount },
          state := { quotes := [("ONRAMP_1", Fixtures.onCompleted)],
                     journal := [] },
          verifyCalls := 0, sendCalls := 0 })
    ∧ Onramp.statusInv
        (Onramp.verifyPayment
          { quotes := [("ONRAMP_1", Fixtures.onCompleted)], journal := [] }
          Fixtures.onEnvFail "ONRAMP_1" none).state.quotes := by
  have hinv : Onramp.statusInv [("ONRAMP_1", Fixtures.onCompleted)] := by
    intro p hp
    rcases List.mem_singleton.mp hp with rfl
    exact Or.inr rfl
  refine ⟨(C3_monotonic.1
      { quotes := [("OFFRAMP_1", Fixtures.offCompleted)], journal := [],
        mockTransfers := [] }
      Fixtures.envOk "OFFRAMP_1" "0xdead" none Fixtures.offCompleted
      rfl (Or.inl rfl)).1,
    C3_monotonic.2.1
      { quotes := [("ONRAMP_1", Fixtures.onCompleted)], journal := [] }
      Fixtures.onEnvFail "ONRAMP_1" none Fixtures.onCompleted
      rfl rfl,
    C3_monotonic.2.2.1
      { quotes := [("ONRAMP_1", Fixtures.onCompleted)], journal := [] }
      Fixtures.onEnvFail "ONRAMP_1" none hinv⟩

/-! ## Claim C4 — quote reconstruction from redundant caller data -/

/-- C4.  When a settlement call receives a quote id absent from the live
store together with sufficient redundant `quoteData` (bank account, bank
code and account name for the off-ramp; user address and NGN amount for
the on-ramp), it inserts exactly one new quote with status `pending`
whose counter-amount is recomputed from the current exchange rate; any
later call with the same id takes the found branch and uses the stored
quote, ignoring caller data (and after a full `executeOfframp` call the
id is present in the store); with insufficient redundant data the call
fails with the quote-not-found error instead of being retried. -/
theorem C4_reconstruction :
    (∀ (quotes : JsMap Offramp.Quote) (quoteId : String)
        (qd : Offramp.QuoteData) (rate : ExchangeRate.RateCache) (now : Nat),
      mapGet quotes quoteId = none →
      (strTruthy qd.bankAccount && strTruthy qd.bankCode
        && strTruthy qd.accountName) = true →
      Offramp.lookupOrRecreate quotes quoteId (some qd) rate now
        = Except.ok (Offramp.recreateQuote qd rate now,
            mapSet quotes quoteId (Offramp.recreateQuote qd rate now))
      ∧ (Offramp.recreateQuote qd rate now).status = Status.pending
      ∧ (Offramp.recreateQuote qd rate now).ngnAmount
        = jsMul qd.usdcAmount rate.usdcToNgn
      ∧ (Offramp.recreateQuote qd rate now).rate = rate.usdcToNgn
      ∧ mapGet (mapSet quotes quoteId (Offramp.recreateQuote qd rate now))
          quoteId = some (Offramp.recreateQuote qd rate now))
    ∧ (∀ (quotes : JsMap Offramp.Quote) (quoteId : String)
        (q : Offramp.Quote) (qd2 : Option Offramp.QuoteData)
        (rate2 : ExchangeRate.RateCache) (now2 : Nat),
      mapGet quotes quoteId = some q →
      Offramp.lookupOrRecreate quotes quoteId qd2 rate2 now2
        = Except.ok (q, quotes))
    ∧ (∀ (quotes : JsMap Offramp.Quote) (quoteId : String)
        (qd : Offramp.QuoteData) (rate : ExchangeRate.RateCache) (now : Nat),
      mapGet quotes quoteId = none →
      (strTruthy qd.bankAccount && strTruthy qd.bankCode
        && strTruthy qd.accountName) = false →
      Offramp.lookupOrRecreate quotes quoteId (some qd) rate now
        = Except.error quoteNotFoundMsg)
    ∧ (∀ (s : Offramp.State) (env : Offramp.Env) (quoteId txHash : String)
        (qd : Offramp.QuoteData),
      mapGet s.quotes quoteId = none →
      (strTruthy qd.bankAccount && strTruthy qd.bankCode
        && strTruthy qd.accountName) = false →
      Offramp.executeOfframp s env quoteId txHash (some qd) =
        { result := Except.error quoteNotFoundMsg, state := s,
          recipientCalls := 0, transferCalls := 0 })
    ∧ (∀ (s : Offramp.State) (env : Offramp.Env) (quoteId txHash : String)
        (qd : Option Offramp.QuoteData) (q : Offramp.Quote)
        (m' : JsMap Offramp.Quote),
      Offramp.lookupOrRecreate s.quotes quoteId qd env.rate env.now
        = Except.ok (q, m') →
      ∃ q', mapGet
        (Offramp.executeOfframp s env quoteId txHash qd).state.quotes
        quoteId = some q')
    ∧ (∀ (quotes : JsMap Onramp.Quote) (ref : String)
        (qd : Onramp.QuoteData) (rate : ExchangeRate.RateCache) (now : Nat),
      mapGet quotes ref = none →
      (strTruthy qd.userAddress && truthyNum qd.ngnAmount) = true →
      Onramp.lookupOrRecreate quotes ref (some qd) rate now
        = Except.ok (Onramp.recreateQuote qd rate now,
            mapSet quotes ref (Onramp.recreateQuote qd rate now))
      ∧ (Onramp.recreateQuote qd rate now).status = Status.pending
      ∧ (Onramp.recreateQuote qd rate now).usdcAmount
        = jsMul qd.ngnAmount rate.ngnToUsdc
      ∧ mapGet (mapSet quotes ref (Onramp.recreateQuote qd rate now)) ref
        = some (Onramp.recreateQuote qd rate now))
    ∧ (∀ (quotes : JsMap Onramp.Quote) (ref : String) (q : Onramp.Quote)
        (qd2 : Option Onramp.QuoteData) (rate2 : ExchangeRate.RateCache)
        (now2 : Nat),
      mapGet quotes ref = some q →
      Onramp.lookupOrRecreate quotes ref qd2 rate2 now2
        = Except.ok (q, quotes))
    ∧ (∀ (quotes : JsMap Onramp.Quote) (ref : String)
        (qd : Onramp.QuoteData) (rate : ExchangeRate.RateCache) (now : Nat),
      mapGet quotes ref = none →
      (strTruthy qd.userAddress && truthyNum qd.ngnAmount) = false →
      Onramp.lookupOrRecreate quotes ref (some qd) rate now
        = Except.error quoteNotFoundMsg) := by
  refine ⟨?_, ?_, ?_, ?_, Offramp.executeOfframp_preserves_id, ?_, ?_, ?_⟩
  · intro quotes quoteId qd rate now hmiss hsuff
    refine ⟨?_, rfl, rfl, rfl, mapGet_mapSet_self _ _ _⟩
    simp only [Offramp.lookupOrRecreate, hmiss]
    rw [if_pos hsuff]
  · intro quotes quoteId q qd2 rate2 now2 hq
    unfold Offramp.lookupOrRecreate
    rw [hq]
  · intro quotes quoteId qd rate now hmiss hsuff
    simp only [Offramp.lookupOrRecreate, hmiss]
    rw [if_neg (by simp [hsuff])]
  · intro s env quoteId txHash qd hmiss hsuff
    have hlr : Offramp.lookupOrRecreate s.quotes quoteId (some qd) env.rate
        env.now = Except.error quoteNotFoundMsg := by
      simp only [Offramp.lookupOrRecreate, hmiss]
      rw [if_neg (by simp [hsuff])]
    simp only [Offramp.executeOfframp, hlr]
  · intro quotes ref qd rate now hmiss hsuff
    refine ⟨?_, rfl, rfl, mapGet_mapSet_self _ _ _⟩
    simp only [Onramp.lookupOrRecreate, hmiss]
    rw [if_pos hsuff]
  · intro quotes ref q qd2 rate2 now2 hq
    unfold Onramp.lookupOrRecreate
    rw [hq]
  · intro quotes ref qd rate now hmiss hsuff
    simp only [Onramp.lookupOrRecreate, hmiss]
    rw [if_neg (by simp [hsuff])]

/-- C4, witness at concrete inputs: an empty store with sufficient
redundant data (both directions), a populated store ignoring caller data,
and insufficient redundant data (missing bank fields / missing address)
producing the quote-not-found error. -/
theorem C4_witness :
    (Offramp.lookupOrRecreate [] "OFFRAMP_LOST" (some Fixtures.offQD)
        Fixtures.rateOk 5
      = Except.ok (Offramp.recreateQuote Fixtures.offQD Fixtures.rateOk 5,
          mapSet [] "OFFRAMP_LOST"
            (Offramp.recreateQuote Fixtures.offQD Fixtures.rateOk 5))
      ∧ (Offramp.recreateQuote Fixtures.offQD Fixtures.rateOk 5).status
        = Status.pending
      ∧ (Offramp.recreateQuote Fixtures.offQD Fixtures.rateOk 5).ngnAmount
        = jsMul Fixtures.offQD.usdcAmount Fixtures.rateOk.usdcToNgn)
    ∧ Offramp.lookupOrRecreate [("OFFRAMP_1", Fixtures.offPending)]
        "OFFRAMP_1" (some Fixtures.offQD) Fixtures.rateOk 99
      = Except.ok (Fixtures.offPending, [("OFFRAMP_1", Fixtures.offPending)])
    ∧ Offramp.lookupOrRecreate [] "OFFRAMP_LOST"
        (some { usdcAmount := some 10 }) Fixtures.rateOk 5
      = Except.error quoteNotFoundMsg
    ∧ (∃ q', mapGet (Offramp.executeOfframp
        { quotes := [], journal := [], mockTransfers := [] }
        Fixtures.envOk "OFFRAMP_LOST" "0xdead"
        (some Fixtures.offQD)).state.quotes "OFFRAMP_LOST" = some q')
    ∧ Onramp.lookupOrRecreate [] "ONRAMP_LOST" (some Fixtures.onQD)
        Fixtures.rateOk 5
      = Except.ok (Onramp.recreateQuote Fixtures.onQD Fixtures.rateOk 5,
          mapSet [] "ONRAMP_LOST"
            (Onramp.recreateQuote Fixtures.onQD Fixtures.rateOk 5))
    ∧ Onramp.lookupOrRecreate [] "ONRAMP_LOST"
        (some { ngnAmount := some 15300 }) Fixtures.rateOk 5
      = Except.error quoteNotFoundMsg := by
  refine ⟨?_, ?_, ?_, ?_, ?_, ?_⟩
  · have h := C4_reconstruction.1 [] "OFFRAMP_LOST" Fixtures.offQD
      Fixtures.rateOk 5 rfl (by decide)
    exact ⟨h.1, h.2.1, h.2.2.1⟩
  · exact C4_reconstruction.2.1 [("OFFRAMP_1", Fixtures.offPending)]
      "OFFRAMP_1" Fixtures.offPending (some Fixtures.offQD)
      Fixtures.rateOk 99 rfl
  · exact C4_reconstruction.2.2.1 [] "OFFRAMP_LOST"
      { usdcAmount := some 10 } Fixtures.rateOk 5 rfl (by decide)
  · exact C4_reconstruction.2.2.2.2.1
      { quotes := [], journal := [], mockTransfers := [] }
      Fixtures.envOk "OFFRAMP_LOST" "0xdead" (some Fixtures.offQD)
      (Offramp.recreateQuote Fixtures.offQD Fixtures.rateOk 5)
      (mapSet [] "OFFRAMP_LOST"
        (Offramp.recreateQuote Fixtures.offQD Fixtures.rateOk 5))
      (C4_reconstruction.1 [] "OFFRAMP_LOST" Fixtures.offQD
        Fixtures.rateOk 5 rfl (by decide)).1
  · exact (C4_reconstruction.2.2.2.2.2.1 [] "ONRAMP_LOST" Fixtures.onQD
      Fixtures.rateOk 5 rfl (by decide)).1
  · exact C4_reconstruction.2.2.2.2.2.2.2 [] "ONRAMP_LOST"
      { ngnAmount := some 15300 } Fixtures.rateOk 5 rfl (by decide)

/-! ## Claim C10 — settlement without a user address leaves no journal entry -/

/-- C10.  If `executeOfframp` runs for a quote with no truthy user address
available (none stored in the quote and none supplied in `quoteData`), the
settlement still proceeds to a terminal status (`completed` or `failed`)
for that quote, but the transaction journal is completely untouched — no
entry is created or updated, so the settled off-ramp is absent from the
owner-queryable history. -/
theorem C10_unjournaled (s : Offramp.State) (env : Offramp.Env)
    (quoteId txHash : String) (qd : Option Offramp.QuoteData)
    (q : Offramp.Quote) (hq : mapGet s.quotes quoteId = some q)
    (hrun : q.status = Status.pending ∨ q.status = Status.processing)
    (huser : strTruthy (jsOrStr q.userAddress
      (qd.bind (fun d => d.userAddress))) = false) :
    (Offramp.executeOfframp s env quoteId txHash qd).state.journal
      = s.journal
    ∧ ∃ q', mapGet
        (Offramp.executeOfframp s env quoteId txHash qd).state.quotes
        quoteId = some q'
      ∧ (q'.status = Status.completed ∨ q'.status = Status.failed) := by
  have hlr : Offramp.lookupOrRecreate s.quotes quoteId qd env.rate env.now
      = Except.ok (q, s.quotes) := by
    unfold Offramp.lookupOrRecreate
    rw [hq]
  have hcond : ¬(q.status ≠ Status.pending
      ∧ q.status ≠ Status.processing) := by
    rcases hrun with h | h <;> simp [h]
  have hneg : ¬(strTruthy (jsOrStr q.userAddress
      (qd.bind (fun d => d.userAddress))) = true) := by
    simp [huser]
  simp only [Offramp.executeOfframp, hlr]
  rw [if_neg hcond]
  try dsimp only
  rw [if_neg hneg]
  split
  · rw [Offramp.execCatch_no_user _ _ _ _ _ _ _ _ _ _ huser]
    exact ⟨rfl, _, mapGet_mapSet_self _ _ _, Or.inr rfl⟩
  · split
    · rw [Offramp.execCatch_no_user _ _ _ _ _ _ _ _ _ _ huser]
      exact ⟨rfl, _, mapGet_mapSet_self _ _ _, Or.inr rfl⟩
    · split
      · rw [Offramp.execCatch_no_user _ _ _ _ _ _ _ _ _ _ huser]
        exact ⟨rfl, _, mapGet_mapSet_self _ _ _, Or.inr rfl⟩
      · split
        · rw [Offramp.execCatch_no_user _ _ _ _ _ _ _ _ _ _ huser]
          exact ⟨rfl, _, mapGet_mapSet_self _ _ _, Or.inr rfl⟩
        · exact ⟨rfl, _, mapGet_mapSet_self _ _ _, Or.inl rfl⟩

/-- C10, witness: a pending quote with no user address anywhere settles to
`completed` under a successful gateway, with the journal left equal to the
initial (empty) journal. -/
theorem C10_witness :
    (Offramp.executeOfframp
      { quotes := [("OFFRAMP_1", Fixtures.offPending)], journal := [],
        mockTransfers := [] }
      Fixtures.envOk "OFFRAMP_1" "0xdead" none).state.journal = []
    ∧ ∃ q', mapGet
        (Offramp.executeOfframp
          { quotes := [("OFFRAMP_1", Fixtures.offPending)], journal := [],
            mockTransfers := [] }
          Fixtures.envOk "OFFRAMP_1" "0xdead" none).state.quotes
        "OFFRAMP_1" = some q'
      ∧ (q'.status = Status.completed ∨ q'.status = Status.failed) :=
  C10_unjournaled
    { quotes := [("OFFRAMP_1", Fixtures.offPending)], journal := [],
      mockTransfers := [] }
    Fixtures.envOk "OFFRAMP_1" "0xdead" none Fixtures.offPending
    rfl (Or.inl rfl) rfl

/-! ## Claim C8 — catch paths that swallow errors -/

/-- C8, counterexample.  The claim states that an error thrown while
processing a payment-gateway webhook settlement (`handlePaymentSuccess`)
and an error thrown while updating the transaction journal during
off-ramp failure handling are surfaced to the caller.  At these concrete
inputs: (i) the inner `verifyPayment` of `handlePaymentSuccess` throws
the quote-not-found error, yet `handlePaymentSuccess` returns normally;
(ii) during off-ramp failure handling the journal update throws
`"Transaction OFFRAMP_1 not found"` (the entry was recorded under the
generated id `offramp_gen_1`, still left at status `"processing"`), yet
`executeOfframp` rethrows only the original gateway error
`"Paystack down"`. -/
theorem C8_counterexample :
    (Onramp.verifyPayment { quotes := [], journal := [] }
      Fixtures.onEnvFail "ONRAMP_X" none).result
      = Except.error quoteNotFoundMsg
    ∧ (Onramp.handlePaymentSuccess { quotes := [], journal := [] }
        Fixtures.onEnvFail "ONRAMP_X").result = Except.ok ()
    ∧ (Offramp.executeOfframp
        { quotes := [("OFFRAMP_1", Fixtures.offPendingUser)], journal := [],
          mockTransfers := [] }
        Fixtures.envRecipFail "OFFRAMP_1" "0xabc" none).result
      = Except.error "Paystack down"
    ∧ mapGet (Offramp.executeOfframp
        { quotes := [("OFFRAMP_1", Fixtures.offPendingUser)], journal := [],
          mockTransfers := [] }
        Fixtures.envRecipFail "OFFRAMP_1" "0xabc" none).state.journal
        "OFFRAMP_1" = none
    ∧ (mapGet (Offramp.executeOfframp
        { quotes := [("OFFRAMP_1", Fixtures.offPendingUser)], journal := [],
          mockTransfers := [] }
        Fixtures.envRecipFail "OFFRAMP_1" "0xabc" none).state.journal
        "offramp_gen_1").map (fun t => t.status) = some "processing"
    ∧ TxHistory.updateTransactionStatus
        (Offramp.executeOfframp
          { quotes := [("OFFRAMP_1", Fixtures.offPendingUser)], journal := [],
            mockTransfers := [] }
          Fixtures.envRecipFail "OFFRAMP_1" "0xabc" none).state.journal
        "OFFRAMP_1" "failed"
        { metadata := some [("error", TxHistory.MetaVal.str "Paystack down")] }
        5
      = Except.error "Transaction OFFRAMP_1 not found" := by
  refine ⟨by decide, by decide, by decide, by decide, by decide, by decide⟩

/-- C8, amended.  The two cited catch paths swallow rather than surface:
`handlePaymentSuccess` always returns normally, whatever its inner
`verifyPayment` did; and when the off-ramp payout leg fails with a
gateway error, `executeOfframp` rethrows exactly that original error —
the journal-update error raised inside the failure handler is logged and
dropped. -/
theorem C8_amended :
    (∀ (s : Onramp.State) (env : Onramp.Env) (ref : String),
      (Onramp.handlePaymentSuccess s env ref).result = Except.ok ())
    ∧ (∀ (s : Offramp.State) (env : Offramp.Env) (quoteId txHash : String)
        (qd : Option Offramp.QuoteData) (q : Offramp.Quote)
        (m' : JsMap Offramp.Quote) (e : String),
      Offramp.lookupOrRecreate s.quotes quoteId qd env.rate env.now
        = Except.ok (q, m') →
      q.status = Status.pending ∨ q.status = Status.processing →
      env.recipientResp = Except.error e →
      (Offramp.executeOfframp s env quoteId txHash qd).result
        = Except.error e) := by
  constructor
  · intro s env ref
    unfold Onramp.handlePaymentSuccess
    split
    · rfl
    · dsimp only
      split <;> rfl
  · intro s env quoteId txHash qd q m' e hlr hrun herr
    have hcond : ¬(q.status ≠ Status.pending
        ∧ q.status ≠ Status.processing) := by
      rcases hrun with h | h <;> simp [h]
    simp only [Offramp.executeOfframp, hlr]
    rw [if_neg hcond]
    try dsimp only
    rw [herr]
    rfl

/-- C8, witness for the amended theorem at concrete inputs. -/
theorem C8_witness :
    (Onramp.handlePaymentSuccess { quotes := [], journal := [] }
      Fixtures.onEnvFail "ONRAMP_X").result = Except.ok ()
    ∧ (Offramp.executeOfframp
        { quotes := [("OFFRAMP_1", Fixtures.offPendingUser)], journal := [],
          mockTransfers := [] }
        Fixtures.envRecipFail "OFFRAMP_1" "0xabc" none).result
      = Except.error "Paystack down" :=
  ⟨C8_amended.1 { quotes := [], journal := [] } Fixtures.onEnvFail "ONRAMP_X",
    C8_amended.2
      { quotes := [("OFFRAMP_1", Fixtures.offPendingUser)], journal := [],
        mockTransfers := [] }
      Fixtures.envRecipFail "OFFRAMP_1" "0xabc" none
      Fixtures.offPendingUser
      [("OFFRAMP_1", Fixtures.offPendingUser)] "Paystack down"
      rfl (Or.inl rfl) rfl⟩

/-! ## Claim C1 — automatic refund in the off-ramp execute error handler -/

/-- C1.  The off-ramp execute error handler calls
`offrampService.refundUSDC`, but offramp.js neither defines nor exports a
`refundUSDC` (its `module.exports` holds only the five names in
`offrampModuleExports`), so the resolved property is `undefined` and the
call throws `TypeError: offrampService.refundUSDC is not a function`:
(i) on every input the route's `refund` field, when present, reports
`success: false` — the automatic refund can never be carried out; (ii) at
the concrete failing input (confirmed-receipt quote, payout leg failing
with "Paystack down", caller data with user address and USDC amount) the
response reports the refund failed with exactly that `TypeError` message,
instead of refunding `10` USDC to the user as the specification
requires. -/
theorem C1_refund_impossible :
    (∀ (s : Offramp.State) (env : Offramp.Env)
        (quoteId txHash : Option String) (qd : Option Offramp.QuoteData),
      ((Server.executeOfframpRoute s env quoteId txHash qd).1.refund).elim
        True (fun r => r.success = false))
    ∧ (Server.executeOfframpRoute
        { quotes := [("OFFRAMP_1", Fixtures.offPendingUser)], journal := [],
          mockTransfers := [] }
        Fixtures.envRecipFail (some "OFFRAMP_1") (some "0xabc")
        (some Fixtures.offQD)).1
      = { status := 500, success := false, error := some "Paystack down",
          refund := some
            { success := false,
              error := some "offrampService.refundUSDC is not a function" } }
    ∧ Server.offrampModuleExports.contains "refundUSDC" = false := by
  refine ⟨?_, by decide, by decide⟩
  intro s env quoteId txHash qd
  unfold Server.executeOfframpRoute
  split
  · trivial
  · dsimp only
    split
    · trivial
    · split
      · split
        · split
          · rename_i rr heq
            simp [Server.callRefundUSDC, Server.offrampServiceRefundUSDC]
              at heq
          · exact rfl
        · trivial
      · trivial

namespace Processing

theorem pollLoop_all_retryable (resps : Nat → AttemptResult)
    (msgs : Nat → String)
    (h : ∀ i, resps i = AttemptResult.rejected (msgs i)
      ∧ retryableMsg (msgs i) = true) :
    ∀ fuel calls sleeps, pollLoop resps calls sleeps fuel
      = PollOutcome.failedStage timeoutMsg (calls + fuel) (sleeps + fuel) := by
  intro fuel
  induction fuel with
  | zero =>
    intro calls sleeps
    simp [pollLoop]
  | succ n ih =>
    intro calls sleeps
    obtain ⟨hm, hr⟩ := h calls
    simp only [pollLoop, hm]
    rw [if_pos hr, ih (calls + 1) (sleeps + 1)]
    congr 1 <;> omega

theorem pollLoop_abort (resps : Nat → AttemptResult) (m : String) :
    ∀ (k fuel calls sleeps : Nat) (msgs : Nat → String), k < fuel →
      (∀ i, i < k → resps (calls + i) = AttemptResult.rejected (msgs i)
        ∧ retryableMsg (msgs i) = true) →
      resps (calls + k) = AttemptResult.rejected m →
      retryableMsg m = false →
      pollLoop resps calls sleeps fuel
        = PollOutcome.failedStage m (calls + k + 1) (sleeps + k) := by
  intro k
  induction k with
  | zero =>
    intro fuel calls sleeps msgs hk hpre hbad hnr
    cases fuel with
    | zero => omega
    | succ n =>
      have hb : resps calls = AttemptResult.rejected m := by simpa using hbad
      simp only [pollLoop, hb]
      rw [if_neg (by simp [hnr])]
      congr 1
  | succ k ih =>
    intro fuel calls sleeps msgs hk hpre hbad hnr
    cases fuel with
    | zero => omega
    | succ n =>
      obtain ⟨h0, hr0⟩ := hpre 0 (Nat.succ_pos k)
      have h0' : resps calls = AttemptResult.rejected (msgs 0) := by
        simpa using h0
      simp only [pollLoop, h0']
      rw [if_pos hr0]
      have hpre' : ∀ i, i < k →
          resps (calls + 1 + i) = AttemptResult.rejected (msgs (i + 1))
          ∧ retryableMsg (msgs (i + 1)) = true := by
        intro i hi
        have h2 := hpre (i + 1) (by omega)
        have he : calls + (i + 1) = calls + 1 + i := by omega
        exact ⟨by rw [← he]; exact h2.1, h2.2⟩
      have hbad' : resps (calls + 1 + k) = AttemptResult.rejected m := by
        have he : calls + 1 + k = calls + (k + 1) := by omega
        rw [he]
        exact hbad
      rw [ih n (calls + 1) (sleeps + 1) (fun j => msgs (j + 1)) (by omega)
        hpre' hbad' hnr]
      congr 1 <;> omega

end Processing

/-! ## Claim C7 — bounded on-ramp verification poll -/

/-- C7.  The on-ramp payment-verification poll calls the verify-by-
reference operation at a fixed 1000 ms interval, up to 60 attempts.  If
every attempt rejects with a retryable ("payment not yet settled")
message, the poll makes exactly 60 calls, sleeps the fixed interval after
each, and ends in the terminal `failed` stage with the timeout error —
whose message mentions "timeout" — rather than staying pending.  If any
attempt rejects with a non-retryable message, the poll aborts immediately
in the `failed` stage with that error and makes no further calls. -/
theorem C7_poll_bounded :
    Processing.maxAttempts = 60
    ∧ Processing.pollIntervalMs = 1000
    ∧ strIncludes Processing.timeoutMsg "timeout" = true
    ∧ (∀ (resps : Nat → Processing.AttemptResult) (msgs : Nat → String),
        (∀ i, resps i = Processing.AttemptResult.rejected (msgs i)
          ∧ Processing.retryableMsg (msgs i) = true) →
        Processing.verifyPaymentPoll resps
          = Processing.PollOutcome.failedStage Processing.timeoutMsg 60 60)
    ∧ (∀ (resps : Nat → Processing.AttemptResult) (msgs : Nat → String)
        (m : String) (k : Nat), k < 60 →
        (∀ i, i < k → resps i = Processing.AttemptResult.rejected (msgs i)
          ∧ Processing.retryableMsg (msgs i) = true) →
        resps k = Processing.AttemptResult.rejected m →
        Processing.retryableMsg m = false →
        Processing.verifyPaymentPoll resps
          = Processing.PollOutcome.failedStage m (k + 1) k) := by
  refine ⟨rfl, rfl, by decide, ?_, ?_⟩
  · intro resps msgs h
    have h60 := Processing.pollLoop_all_retryable resps msgs h 60 0 0
    simpa [Processing.verifyPaymentPoll, Processing.maxAttempts] using h60
  · intro resps msgs m k hk hpre hbad hnr
    have ha := Processing.pollLoop_abort resps m k 60 0 0 msgs hk
      (by simpa using hpre) (by simpa using hbad) hnr
    simpa [Processing.verifyPaymentPoll, Processing.maxAttempts] using ha

/-- C7, witness: a gateway that always answers "Payment not successful"
exhausts all 60 attempts into the timeout failure; one that answers a
non-retryable server error on the fourth attempt aborts right there. -/
theorem C7_witness :
    Processing.verifyPaymentPoll
      (fun _ => Processing.AttemptResult.rejected
        "Payment not successful. Status: pending")
      = Processing.PollOutcome.failedStage Processing.timeoutMsg 60 60
    ∧ Processing.verifyPaymentPoll
      (fun i => if i < 3 then
          Processing.AttemptResult.rejected
            "Payment not successful. Status: pending"
        else Processing.AttemptResult.rejected
          "Request failed with status code 500")
      = Processing.PollOutcome.failedStage
        "Request failed with status code 500" 4 3 := by
  have hr : Processing.retryableMsg
      "Payment not successful. Status: pending" = true := by decide
  have hnr : Processing.retryableMsg
      "Request failed with status code 500" = false := by decide
  constructor
  · exact C7_poll_bounded.2.2.2.1 _
      (fun _ => "Payment not successful. Status: pending")
      (fun _ => ⟨rfl, hr⟩)
  · exact C7_poll_bounded.2.2.2.2 _
      (fun _ => "Payment not successful. Status: pending")
      "Request failed with status code 500" 3 (by decide)
      (fun i hi => ⟨by simp [hi], hr⟩)
      (by norm_num) hnr

namespace TxHistory

theorem newestFirst_trans : ∀ (a b c : TxEntry),
    newestFirst a b → newestFirst b c → newestFirst a c := by
  intro a b c h1 h2
  simp only [newestFirst, decide_eq_true_eq] at *
  omega

theorem newestFirst_total : ∀ (a b : TxEntry),
    newestFirst a b || newestFirst b a := by
  intro a b
  simp only [newestFirst, Bool.or_eq_true, decide_eq_true_eq]
  omega

theorem filter_value_eq {o : Option String} {x : String}
    (ht : strTruthy o = true) (hx : (x == o.getD "") = true) : some x = o := by
  cases o with
  | none => simp [strTruthy] at ht
  | some v =>
    have hv : x = v := by simpa using hx
    rw [hv]

theorem mem_filteredTxs {j : Journal} {addr : String} {opts : QueryOptions}
    {tx : TxEntry} (h : tx ∈ filteredTxs j addr opts) :
    tx.userAddress.toLower = addr.toLower
    ∧ (strTruthy opts.type = true → some tx.type = opts.type)
    ∧ (strTruthy opts.status = true → some tx.status = opts.status) := by
  simp only [filteredTxs] at h
  by_cases hs : strTruthy opts.status = true
  · rw [if_pos hs] at h
    obtain ⟨h1, hstat⟩ := List.mem_filter.mp h
    by_cases ht : strTruthy opts.type = true
    · rw [if_pos ht] at h1
      obtain ⟨h2, htype⟩ := List.mem_filter.mp h1
      obtain ⟨_, howner⟩ := List.mem_filter.mp h2
      exact ⟨by simpa using howner,
        fun _ => filter_value_eq ht htype,
        fun _ => filter_value_eq hs hstat⟩
    · rw [if_neg ht] at h1
      obtain ⟨_, howner⟩ := List.mem_filter.mp h1
      exact ⟨by simpa using howner,
        fun hcontra => absurd hcontra ht,
        fun _ => filter_value_eq hs hstat⟩
  · rw [if_neg hs] at h
    by_cases ht : strTruthy opts.type = true
    · rw [if_pos ht] at h
      obtain ⟨h2, htype⟩ := List.mem_filter.mp h
      obtain ⟨_, howner⟩ := List.mem_filter.mp h2
      exact ⟨by simpa using howner,
        fun _ => filter_value_eq ht htype,
        fun hcontra => absurd hcontra hs⟩
    · rw [if_neg ht] at h
      obtain ⟨_, howner⟩ := List.mem_filter.mp h
      exact ⟨by simpa using howner,
        fun hcontra => absurd hcontra ht,
        fun hcontra => absurd hcontra hs⟩

end TxHistory

/-! ## Claim C9 — owner-queryable, filtered, paginated journal reads -/

/-- C9.  For every owner address and query options, `getUserTransactions`
returns exactly the `slice(offset, offset + limit)` window of the
newest-first sort of the entries matching the (case-insensitive) owner
address and, when present, the type and status filters; its `total` is
the number of matching entries before pagination; at most `limit` entries
are returned; the returned window is sorted newest-first by timestamp;
and every returned entry matches the owner and the given filters. -/
theorem C9_user_transactions (j : TxHistory.Journal) (addr : String)
    (opts : TxHistory.QueryOptions) :
    (TxHistory.getUserTransactions j addr opts).transactions
      = (((TxHistory.filteredTxs j addr opts).mergeSort
          TxHistory.newestFirst).drop opts.offset).take opts.limit
    ∧ (TxHistory.getUserTransactions j addr opts).total
      = (TxHistory.filteredTxs j addr opts).length
    ∧ (TxHistory.getUserTransactions j addr opts).limit = opts.limit
    ∧ (TxHistory.getUserTransactions j addr opts).offset = opts.offset
    ∧ (TxHistory.getUserTransactions j addr opts).transactions.length
      ≤ opts.limit
    ∧ List.Pairwise (fun a b => TxHistory.newestFirst a b = true)
        (TxHistory.getUserTransactions j addr opts).transactions
    ∧ (∀ tx ∈ (TxHistory.getUserTransactions j addr opts).transactions,
        tx.userAddress.toLower = addr.toLower
        ∧ (strTruthy opts.type = true → some tx.type = opts.type)
        ∧ (strTruthy opts.status = true → some tx.status = opts.status)) := by
  have hsub : List.Sublist
      ((((TxHistory.filteredTxs j addr opts).mergeSort
        TxHistory.newestFirst).drop opts.offset).take opts.limit)
      ((TxHistory.filteredTxs j addr opts).mergeSort
        TxHistory.newestFirst) :=
    (List.take_sublist _ _).trans (List.drop_sublist _ _)
  refine ⟨rfl, ?_, rfl, rfl, ?_, ?_, ?_⟩
  · simp [TxHistory.getUserTransactions]
  · exact List.length_take_le opts.limit _
  · have hpair := List.sorted_mergeSort TxHistory.newestFirst_trans
      TxHistory.newestFirst_total (TxHistory.filteredTxs j addr opts)
    exact hpair.sublist hsub
  · intro tx htx
    have hmem : tx ∈ (TxHistory.filteredTxs j addr opts).mergeSort
        TxHistory.newestFirst := hsub.subset htx
    exact TxHistory.mem_filteredTxs (List.mem_mergeSort.mp hmem)

/-- C9, witness at a concrete three-entry journal queried with mixed-case
owner address and no filters. -/
theorem C9_witness :
    (TxHistory.getUserTransactions
      [("onramp_1", Fixtures.txOn1), ("offramp_2", Fixtures.txOff2),
       ("onramp_3", Fixtures.txOther)]
      "0XABC" { }).transactions
      = (((TxHistory.filteredTxs
          [("onramp_1", Fixtures.txOn1), ("offramp_2", Fixtures.txOff2),
           ("onramp_3", Fixtures.txOther)]
          "0XABC" { }).mergeSort TxHistory.newestFirst).drop 0).take 50
    ∧ List.Pairwise (fun a b => TxHistory.newestFirst a b = true)
        (TxHistory.getUserTransactions
          [("onramp_1", Fixtures.txOn1), ("offramp_2", Fixtures.txOff2),
           ("onramp_3", Fixtures.txOther)]
          "0XABC" { }).transactions
    ∧ (∀ tx ∈ (TxHistory.getUserTransactions
          [("onramp_1", Fixtures.txOn1), ("offramp_2", Fixtures.txOff2),
           ("onramp_3", Fixtures.txOther)]
          "0XABC" { }).transactions,
        tx.userAddress.toLower = "0XABC".toLower) := by
  have h := C9_user_transactions
    [("onramp_1", Fixtures.txOn1), ("offramp_2", Fixtures.txOff2),
     ("onramp_3", Fixtures.txOther)] "0XABC" { }
  exact ⟨h.1, h.2.2.2.2.2.1,
    fun tx htx => (h.2.2.2.2.2.2 tx htx).1⟩

end BridgeFi
